import Mathlib

/-!
Verification development for the ts-mock-generator repository.

The development shallowly embeds the repository's type model (`src/lib/types.ts`),
the TypeScript type parser (`src/lib/parser.ts`, function `getTypeInfo` and the
two passes of `parseTypeScriptInterface`), and the mock value generator
(`src/lib/generator`): `generateMockData`, `findRootInterface`,
`generateObjectFromInterface`, `generateValue`, `generatePrimitiveValue`,
`generateStringValue`, `generateNumberValue`, `generateTemplateValue`.

Modelling conventions:
  * JavaScript numbers are modelled as `Rat` where fractional values occur and
    as `Nat` for integer ranges.
  * The external faker-js library is modelled by concrete pure pseudo-random
    primitives threaded through an explicit stream state (`Rng`): the source
    calls `faker.seed(seed)` once per `generateMockData` call and all faker
    functions then consume the seeded stream.  The model mirrors that with an
    explicit state; each primitive consumes one LCG step.  `faker.lorem.word`
    draws from a finite word list, so repeated draws can collide, exactly as in
    the real library.
  * JavaScript truthiness of optional payload fields is modelled with `Option`
    (`undefined` = `none`); string falsiness of `""` is modelled explicitly in
    `jsOrStr` where the source uses `||` on strings.
  * Exceptions are modelled with `Except GErr`; unbounded recursion (the source
    has no cycle-breaking depth limit and can overflow the stack) is modelled
    with an explicit fuel parameter whose exhaustion yields `GErr.fuelOut`.
-/

/-- Random stream state: the internal state of the seeded faker stream. -/
abbrev Rng := Nat

/-- One step of the modelled pseudo-random stream (a linear congruential
generator modulo 2^31 emitting its high bits, as conventional LCG-based
libraries do); returns the drawn value and the next state. -/
def rngNext (st : Rng) : Nat × Rng :=
  let st' := (1103515245 * st + 12345) % 2147483648
  (st' / 65536, st')

/-- Model of `faker.seed(s)`: the stream state is initialised from the seed. -/
def fakerSeedInit (s : Nat) : Rng := s

/-- Model of `faker.number.int({min, max})`: a uniform integer in `[lo, hi]`. -/
def fakerInt (lo hi : Nat) (st : Rng) : Nat × Rng :=
  let (v, st') := rngNext st
  (lo + v % (hi + 1 - lo), st')

/-- Model of `faker.number.float()` (no arguments, value in `[0,1)`), used for
the 30% optional-property skip: the value is represented at permille
granularity, so `random() < 0.3` becomes `permille < 300`. -/
def fakerFloat01 (st : Rng) : Nat × Rng :=
  let (v, st') := rngNext st
  (v % 1000, st')

/-- Model of `faker.number.float({min, max, fractionDigits})`. -/
def fakerFloatRange (lo hi digits : Nat) (st : Rng) : Rat × Rng :=
  let (v, st') := rngNext st
  (((lo * 10 ^ digits + v % ((hi - lo) * 10 ^ digits + 1) : Nat) : Rat) / ((10 ^ digits : Nat) : Rat), st')

/-- Model of `faker.helpers.arrayElement`: picks a uniform element; `none` on an
empty list (where the real library raises). -/
def arrayElement {α : Type} (l : List α) (st : Rng) : Option α × Rng :=
  let (v, st') := rngNext st
  (l.get? (v % l.length), st')

/-- Model of `faker.datatype.boolean()`. -/
def fakerBoolean (st : Rng) : Bool × Rng :=
  let (v, st') := rngNext st
  (v % 2 == 1, st')

/-- Finite vocabulary backing the model of `faker.lorem.word`. -/
def loremWords : List String :=
  ["lorem", "ipsum", "dolor", "sit", "amet", "consectetur", "adipiscing", "elit"]

/-- Model of `faker.lorem.word()`: one word from a finite vocabulary; distinct
calls can return the same word, as in the real library. -/
def loremWord (st : Rng) : String × Rng :=
  let (v, st') := rngNext st
  ((loremWords.get? (v % loremWords.length)).getD "lorem", st')

/-- Pads a natural number with leading zeros to the given width. -/
def padNat (width n : Nat) : String :=
  let s := toString n
  String.mk (List.replicate (width - s.length) '0') ++ s

/-- Model of `faker.date.recent().toISOString()`. -/
def fakerDateRecentISO (st : Rng) : String × Rng :=
  let (v, st') := rngNext st
  ("2024-05-" ++ padNat 2 (v % 28 + 1) ++ "T10:30:00.000Z", st')

/-- Model of `faker.internet.email()`. -/
def fakerEmail (st : Rng) : String × Rng :=
  let (v, st') := rngNext st
  ("user" ++ toString (v % 1000) ++ "@example.com", st')

/-- Model of `faker.internet.username()`. -/
def fakerUsername (st : Rng) : String × Rng :=
  let (v, st') := rngNext st
  ("user_" ++ toString (v % 1000), st')

/-- Model of `faker.internet.password()`. -/
def fakerPassword (st : Rng) : String × Rng :=
  let (v, st') := rngNext st
  ("pw" ++ toString (v % 100000), st')

/-- Model of `faker.phone.number()`. -/
def fakerPhone (st : Rng) : String × Rng :=
  let (v, st') := rngNext st
  ("555-" ++ padNat 4 (v % 10000), st')

/-- Model of `faker.internet.url()`. -/
def fakerUrl (st : Rng) : String × Rng :=
  let (v, st') := rngNext st
  ("https://example" ++ toString (v % 100) ++ ".com", st')

/-- Model of `faker.image.avatar()`. -/
def fakerAvatar (st : Rng) : String × Rng :=
  let (v, st') := rngNext st
  ("https://avatars.example.com/" ++ toString (v % 1000) ++ ".jpg", st')

/-- Model of `faker.color.human()`. -/
def fakerColor (st : Rng) : String × Rng :=
  let (v, st') := rngNext st
  ((["red", "green", "blue", "cyan", "magenta", "yellow"].get? (v % 6)).getD "red", st')

/-- Model of `faker.location.country()`. -/
def fakerCountry (st : Rng) : String × Rng :=
  let (v, st') := rngNext st
  ((["France", "Japan", "Brazil", "Canada"].get? (v % 4)).getD "France", st')

/-- Model of `faker.location.city()`. -/
def fakerCity (st : Rng) : String × Rng :=
  let (v, st') := rngNext st
  ((["Paris", "Tokyo", "Lyon", "Oslo"].get? (v % 4)).getD "Paris", st')

/-- Model of `faker.location.streetAddress()`. -/
def fakerStreetAddress (st : Rng) : String × Rng :=
  let (v, st') := rngNext st
  (toString (v % 999 + 1) ++ " Main Street", st')

/-- Model of `faker.location.zipCode()`. -/
def fakerZipCode (st : Rng) : String × Rng :=
  let (v, st') := rngNext st
  (padNat 5 (v % 100000), st')

/-- Model of `faker.location.state()`. -/
def fakerState (st : Rng) : String × Rng :=
  let (v, st') := rngNext st
  ((["Ohio", "Texas", "Utah", "Iowa"].get? (v % 4)).getD "Ohio", st')

/-- Model of `faker.company.name()`. -/
def fakerCompany (st : Rng) : String × Rng :=
  let (v, st') := rngNext st
  ("Acme " ++ toString (v % 100) ++ " Inc", st')

/-- Model of `faker.person.jobTitle()`. -/
def fakerJobTitle (st : Rng) : String × Rng :=
  let (v, st') := rngNext st
  ((["Engineer", "Designer", "Manager", "Analyst"].get? (v % 4)).getD "Engineer", st')

/-- Model of `faker.lorem.paragraph()`. -/
def loremParagraph (st : Rng) : String × Rng :=
  let (w, st') := loremWord st
  (w ++ " ipsum dolor sit amet, consectetur adipiscing elit.", st')

/-- Model of `faker.lorem.sentence()`. -/
def loremSentence (st : Rng) : String × Rng :=
  let (w, st') := loremWord st
  (w ++ " ipsum dolor sit.", st')

/-- Model of `faker.person.firstName()`. -/
def fakerFirstName (st : Rng) : String × Rng :=
  let (v, st') := rngNext st
  ((["Alice", "Bruno", "Chloe", "David"].get? (v % 4)).getD "Alice", st')

/-- Model of `faker.person.lastName()`. -/
def fakerLastName (st : Rng) : String × Rng :=
  let (v, st') := rngNext st
  ((["Smith", "Kowalski", "Tanaka", "Dubois"].get? (v % 4)).getD "Smith", st')

/-- Model of `faker.person.fullName()`. -/
def fakerFullName (st : Rng) : String × Rng :=
  let (v, st') := rngNext st
  ((["Alice Smith", "Bruno Kowalski", "Chloe Tanaka", "David Dubois"].get? (v % 4)).getD "Alice Smith", st')

/-- Model of `faker.string.uuid()`. -/
def fakerUuid (st : Rng) : String × Rng :=
  let (v, st') := rngNext st
  ("00000000-0000-4000-8000-" ++ padNat 12 (v % 1000000000000), st')

/-- Model of `faker.finance.currencyCode()`. -/
def fakerCurrencyCode (st : Rng) : String × Rng :=
  let (v, st') := rngNext st
  ((["USD", "EUR", "JPY", "GBP"].get? (v % 4)).getD "USD", st')

/-- Model of `faker.commerce.price()` (the faker function returns a string). -/
def fakerPriceString (st : Rng) : String × Rng :=
  let (v, st') := rngNext st
  (toString (v % 1000 + 1) ++ ".00", st')

/-- Model of `faker.commerce.productName()`. -/
def fakerProductName (st : Rng) : String × Rng :=
  let (v, st') := rngNext st
  ((["Rustic Chair", "Sleek Lamp", "Ergonomic Desk", "Soft Towel"].get? (v % 4)).getD "Rustic Chair", st')

/-- Model of `faker.commerce.department()`. -/
def fakerDepartment (st : Rng) : String × Rng :=
  let (v, st') := rngNext st
  ((["Garden", "Games", "Books", "Tools"].get? (v % 4)).getD "Garden", st')

/-- Model of `faker.location.latitude()`. -/
def fakerLatitude (st : Rng) : Rat × Rng :=
  let (v, st') := rngNext st
  ((((v % 18001 : Nat) : Rat) - 9000) / 100, st')

/-- Model of `faker.location.longitude()`. -/
def fakerLongitude (st : Rng) : Rat × Rng :=
  let (v, st') := rngNext st
  ((((v % 36001 : Nat) : Rat) - 18000) / 100, st')

/-- The `kind` discriminator of `TypeInfo` (`src/lib/types.ts`). -/
inductive Kind : Type where
  | string | number | boolean | date | array | object | enum | union
  | intersection | literal | template | unknown | map | set | utility | tuple
deriving DecidableEq, Repr

/-- The recognised utility-type tags (`UtilityType` in `src/lib/types.ts`). -/
inductive UtilityType : Type where
  | uPartial | uRequired | uPick | uOmit | uReadonly | uRecord
  | uLowercase | uUppercase | uCapitalize | uUncapitalize | uPromise | uAwaited
deriving DecidableEq, Repr

/-- A primitive constant (`string | number | boolean` in the source), used for
`literalValue` and `enumValues`. -/
inductive Prim : Type where
  | str (s : String)
  | num (q : Rat)
  | bool (b : Bool)
deriving DecidableEq, Repr

/-- The parsed type node (`TypeInfo` in `src/lib/types.ts`): a wide record whose
optional payload fields are populated according to `kind`.  Field order follows
the source. -/
inductive TypeInfo : Type where
  | mk
    (name : String)
    (kind : Kind)
    (isOptional : Bool)
    (isArray : Bool)
    (arrayElementType : Option TypeInfo)
    (objectProperties : Option (List (String × TypeInfo)))
    (enumValues : Option (List Prim))
    (unionTypes : Option (List TypeInfo))
    (intersectionTypes : Option (List TypeInfo))
    (typeHint : Option String)
    (literalValue : Option Prim)
    (templatePattern : Option String)
    (utilityType : Option UtilityType)
    (utilityTypeArgs : Option (List TypeInfo))
    (mapKeyType : Option TypeInfo)
    (mapValueType : Option TypeInfo)
    (setElementType : Option TypeInfo)
    (keyHint : Option String)
    (tupleElements : Option (List (Option String × TypeInfo)))

def TypeInfo.name : TypeInfo → String
  | .mk n _ _ _ _ _ _ _ _ _ _ _ _ _ _ _ _ _ _ => n

def TypeInfo.kind : TypeInfo → Kind
  | .mk _ k _ _ _ _ _ _ _ _ _ _ _ _ _ _ _ _ _ => k

def TypeInfo.isOptional : TypeInfo → Bool
  | .mk _ _ o _ _ _ _ _ _ _ _ _ _ _ _ _ _ _ _ => o

def TypeInfo.isArray : TypeInfo → Bool
  | .mk _ _ _ a _ _ _ _ _ _ _ _ _ _ _ _ _ _ _ => a

def TypeInfo.arrayElementType : TypeInfo → Option TypeInfo
  | .mk _ _ _ _ e _ _ _ _ _ _ _ _ _ _ _ _ _ _ => e

def TypeInfo.objectProperties : TypeInfo → Option (List (String × TypeInfo))
  | .mk _ _ _ _ _ p _ _ _ _ _ _ _ _ _ _ _ _ _ => p

def TypeInfo.enumValues : TypeInfo → Option (List Prim)
  | .mk _ _ _ _ _ _ v _ _ _ _ _ _ _ _ _ _ _ _ => v

def TypeInfo.unionTypes : TypeInfo → Option (List TypeInfo)
  | .mk _ _ _ _ _ _ _ u _ _ _ _ _ _ _ _ _ _ _ => u

def TypeInfo.intersectionTypes : TypeInfo → Option (List TypeInfo)
  | .mk _ _ _ _ _ _ _ _ i _ _ _ _ _ _ _ _ _ _ => i

def TypeInfo.typeHint : TypeInfo → Option String
  | .mk _ _ _ _ _ _ _ _ _ h _ _ _ _ _ _ _ _ _ => h

def TypeInfo.literalValue : TypeInfo → Option Prim
  | .mk _ _ _ _ _ _ _ _ _ _ v _ _ _ _ _ _ _ _ => v

def TypeInfo.templatePattern : TypeInfo → Option String
  | .mk _ _ _ _ _ _ _ _ _ _ _ p _ _ _ _ _ _ _ => p

def TypeInfo.utilityType : TypeInfo → Option UtilityType
  | .mk _ _ _ _ _ _ _ _ _ _ _ _ u _ _ _ _ _ _ => u

def TypeInfo.utilityTypeArgs : TypeInfo → Option (List TypeInfo)
  | .mk _ _ _ _ _ _ _ _ _ _ _ _ _ a _ _ _ _ _ => a

def TypeInfo.mapKeyType : TypeInfo → Option TypeInfo
  | .mk _ _ _ _ _ _ _ _ _ _ _ _ _ _ k _ _ _ _ => k

def TypeInfo.mapValueType : TypeInfo → Option TypeInfo
  | .mk _ _ _ _ _ _ _ _ _ _ _ _ _ _ _ v _ _ _ => v

def TypeInfo.setElementType : TypeInfo → Option TypeInfo
  | .mk _ _ _ _ _ _ _ _ _ _ _ _ _ _ _ _ e _ _ => e

def TypeInfo.keyHint : TypeInfo → Option String
  | .mk _ _ _ _ _ _ _ _ _ _ _ _ _ _ _ _ _ k _ => k

def TypeInfo.tupleElements : TypeInfo → Option (List (Option String × TypeInfo))
  | .mk _ _ _ _ _ _ _ _ _ _ _ _ _ _ _ _ _ _ t => t

/-- A node with only `name` and `kind` set (all payload fields absent). -/
def TypeInfo.base (name : String) (kind : Kind) : TypeInfo :=
  .mk name kind false false none none none none none none none none none none none none none none none

/-- Object-spread copy overriding `isOptional` and `typeHint`
(`{ ...typeInfo, isOptional, typeHint }` in the parser). -/
def TypeInfo.withOptHint (t : TypeInfo) (o : Bool) (h : Option String) : TypeInfo :=
  .mk t.name t.kind o t.isArray t.arrayElementType t.objectProperties t.enumValues t.unionTypes
    t.intersectionTypes h t.literalValue t.templatePattern t.utilityType t.utilityTypeArgs
    t.mapKeyType t.mapValueType t.setElementType t.keyHint t.tupleElements

/-- Object-spread copy overriding only `isOptional`
(`{ ...propType, isOptional }` in the Partial/Required handler). -/
def TypeInfo.withOpt (t : TypeInfo) (o : Bool) : TypeInfo :=
  t.withOptHint o t.typeHint

/-- Copy with `keyHint` set (`keyTypeArg.keyHint = keyParamName` in the parser). -/
def TypeInfo.withKeyHint (t : TypeInfo) (k : Option String) : TypeInfo :=
  .mk t.name t.kind t.isOptional t.isArray t.arrayElementType t.objectProperties t.enumValues
    t.unionTypes t.intersectionTypes t.typeHint t.literalValue t.templatePattern t.utilityType
    t.utilityTypeArgs t.mapKeyType t.mapValueType t.setElementType k t.tupleElements

/-- `{ name: 'string', kind: 'string' }` -/
def strNode : TypeInfo := .base "string" .string

/-- `{ name: 'number', kind: 'number' }` -/
def numNode : TypeInfo := .base "number" .number

/-- `{ name: 'boolean', kind: 'boolean' }` -/
def boolNode : TypeInfo := .base "boolean" .boolean

/-- `{ name: 'Date', kind: 'date' }` -/
def dateNode : TypeInfo := .base "Date" .date

/-- `{ name, kind: 'unknown' }` — an unresolved reference preserving its name. -/
def unknownNode (n : String) : TypeInfo := .base n .unknown

/-- `{ name: 'array', kind: 'array', isArray: true, arrayElementType }` -/
def arrayNode (e : Option TypeInfo) : TypeInfo :=
  .mk "array" .array false true e none none none none none none none none none none none none none none

/-- `{ name: 'enum', kind: 'enum', enumValues }` -/
def enumNode (vs : List Prim) : TypeInfo :=
  .mk "enum" .enum false false none none (some vs) none none none none none none none none none none none none

/-- `{ name: 'union', kind: 'union', unionTypes }` -/
def unionNode (ts : List TypeInfo) : TypeInfo :=
  .mk "union" .union false false none none none (some ts) none none none none none none none none none none none

/-- `{ name: 'intersection', kind: 'intersection', intersectionTypes }` -/
def intersectionNode (ts : List TypeInfo) : TypeInfo :=
  .mk "intersection" .intersection false false none none none none (some ts) none none none none none none none none none none

/-- `{ name: 'literal', kind: 'literal', literalValue }` -/
def literalNode (v : Prim) : TypeInfo :=
  .mk "literal" .literal false false none none none none none none (some v) none none none none none none none none

/-- `{ name: 'template', kind: 'template', templatePattern }` -/
def templateNode (p : String) : TypeInfo :=
  .mk "template" .template false false none none none none none none none (some p) none none none none none none none

/-- `{ name: 'tuple', kind: 'tuple', tupleElements }` -/
def tupleNode (es : List (Option String × TypeInfo)) : TypeInfo :=
  .mk "tuple" .tuple false false none none none none none none none none none none none none none none (some es)

/-- `{ name: 'Map', kind: 'map', mapKeyType, mapValueType }` -/
def mapNode (k v : Option TypeInfo) : TypeInfo :=
  .mk "Map" .map false false none none none none none none none none none none k v none none none

/-- `{ name: 'Set', kind: 'set', setElementType }` -/
def setNode (e : Option TypeInfo) : TypeInfo :=
  .mk "Set" .set false false none none none none none none none none none none none none e none none

/-- `{ name, kind: 'utility', utilityType, utilityTypeArgs }` -/
def utilityNode (name : String) (u : UtilityType) (args : List TypeInfo) : TypeInfo :=
  .mk name .utility false false none none none none none none none none (some u) (some args) none none none none none

/-- `{ name: 'object', kind: 'object', objectProperties }` -/
def objectNode (props : List (String × TypeInfo)) : TypeInfo :=
  .mk "object" .object false false none (some props) none none none none none none none none none none none none none

/-- A named schema declaration (`InterfaceInfo` in `src/lib/types.ts`);
`properties` is an insertion-ordered string-keyed mapping. -/
structure InterfaceInfo : Type where
  name : String
  properties : List (String × TypeInfo)

/-- `GenerationConfig` from `src/lib/types.ts`. -/
structure GenerationConfig : Type where
  quantity : Option Nat
  seed : Option Nat

/-- A generated JSON-compatible value. -/
inductive Value : Type where
  | str (s : String)
  | num (q : Rat)
  | bool (b : Bool)
  | null
  | arr (vs : List Value)
  | obj (fields : List (String × Value))

def primToValue : Prim → Value
  | .str s => .str s
  | .num q => .num q
  | .bool b => .bool b

/-- JavaScript number-to-string coercion, restricted to the rationals the model
produces (integers render without a decimal point). -/
def ratToJsString (q : Rat) : String :=
  if q.den = 1 then toString q.num else toString q.num ++ "/" ++ toString q.den

/-- Comma-join, the JS `Array.prototype.toString` separator behaviour. -/
def joinComma : List String → String
  | [] => ""
  | [s] => s
  | s :: rest => s ++ "," ++ joinComma rest

mutual

/-- JavaScript `String(value)` coercion as used by the generator
(template concatenation, record keys, string-utility transforms). -/
def valueToString : Value → String
  | .str s => s
  | .num q => ratToJsString q
  | .bool b => if b then "true" else "false"
  | .null => "null"
  | .arr vs => joinComma (valueStrings vs)
  | .obj _ => "[object Object]"
termination_by structural v => v

/-- Stringification of the elements of an array value. -/
def valueStrings : List Value → List String
  | [] => []
  | v :: vs => valueToString v :: valueStrings vs
termination_by structural l => l

end

/-- JavaScript `a || b` on an optional string (`undefined` and `""` are falsy). -/
def jsOrStr (o : Option String) (d : String) : String :=
  match o with
  | some s => if s.isEmpty then d else s
  | none => d

/-- JavaScript `a || b` where both sides are optional strings. -/
def jsOrOptStr (a b : Option String) : Option String :=
  match a with
  | some s => if s.isEmpty then b else some s
  | none => b

/-- JavaScript object-key assignment `obj[k] = v`: replaces the value in place
if the key exists, otherwise appends the pair. -/
def objInsert (fields : List (String × Value)) (k : String) (v : Value) : List (String × Value) :=
  if fields.any (fun p => p.1 == k) then
    fields.map (fun p => if p.1 == k then (k, v) else p)
  else fields ++ [(k, v)]

/-- `Object.assign(merged, value)`: merge the right object's keys into the left
in order, overwriting on collision. -/
def objAssign (acc fields : List (String × Value)) : List (String × Value) :=
  fields.foldl (fun a p => objInsert a p.1 p.2) acc

/-- Key lookup in an insertion-ordered property mapping. -/
def lookupProp (ps : List (String × TypeInfo)) (n : String) : Option TypeInfo :=
  (ps.find? (fun p => p.1 == n)).map (fun p => p.2)

/-- Substring search over character lists (kernel-computable). -/
def containsSub : List Char → List Char → Bool
  | hay, need =>
    if need.isPrefixOf hay then true
    else match hay with
      | [] => false
      | _ :: rest => containsSub rest need

/-- TypeScript `fieldName.includes(term)` (substring containment). -/
def strIncludes (s term : String) : Bool :=
  containsSub s.toList term.toList

/-- `toLowerCase()` over the character list (kernel-computable). -/
def strLower (s : String) : String := String.mk (s.toList.map Char.toLower)

/-- `toUpperCase()` over the character list (kernel-computable). -/
def strUpper (s : String) : String := String.mk (s.toList.map Char.toUpper)

/-- The first `n` characters (`charAt(0)` when `n = 1`). -/
def strTake (s : String) (n : Nat) : String := String.mk (s.toList.take n)

/-- All but the first `n` characters (`slice(1)` when `n = 1`). -/
def strDrop (s : String) (n : Nat) : String := String.mk (s.toList.drop n)

/-- The subset of the TypeScript type-expression AST that `getTypeInfo` in
`src/lib/parser.ts` dispatches on.  `typeLit` members are either property
signatures `(name, optional, type)` or index signatures
`(keyParamName, keyType, valueType)`. -/
inductive TsType : Type where
  | paren (t : TsType)
  | arrayOf (t : TsType)
  | union (ts : List TsType)
  | inter (ts : List TsType)
  | litStr (s : String)
  | litNum (q : Rat)
  | litTrue
  | litFalse
  | litOther (text : String)
  | template (raw : String)
  | tuple (elems : List (Option String × TsType))
  | ref (name : String) (args : List TsType)
  | typeLit (members : List (Sum (String × Bool × Option TsType) (Option String × Option TsType × Option TsType)))
  | strKw
  | numKw
  | boolKw
  | anyKw
  | otherKw (text : String)

/-- A member of a type literal or interface body. -/
abbrev TsMemberE := Sum (String × Bool × Option TsType) (Option String × Option TsType × Option TsType)

/-- A property signature member. -/
def TsMemberE.propSig (name : String) (optional : Bool) (ty : Option TsType) : TsMemberE :=
  Sum.inl (name, optional, ty)

/-- An index-signature member. -/
def TsMemberE.indexSig (keyParamName : Option String) (keyType valueType : Option TsType) : TsMemberE :=
  Sum.inr (keyParamName, keyType, valueType)

/-- A resolved index signature (`IndexSignature` in `src/lib/types.ts`). -/
abbrev IndexSigR := Option String × Option TypeInfo × Option TypeInfo

/-- A top-level declaration of the source program. -/
inductive TsDecl : Type where
  | interfaceDecl (name : String) (members : List TsMemberE)
  | typeAliasDecl (name : String) (ty : TsType)

/-- JavaScript `Map.set` on an association list: replaces in place or appends. -/
def aliasInsert (al : List (String × TsType)) (k : String) (v : TsType) : List (String × TsType) :=
  if al.any (fun p => p.1 == k) then
    al.map (fun p => if p.1 == k then (k, v) else p)
  else al ++ [(k, v)]

/-- First pass of `parseTypeScriptInterface`: collect every type-alias
declaration into the alias table before any body is interpreted. -/
def collectTypeAliases (decls : List TsDecl) : List (String × TsType) :=
  decls.foldl (fun al d =>
    match d with
    | .typeAliasDecl n t => aliasInsert al n t
    | _ => al) []

/-- `typeAliases.get(typeName)`. -/
def aliasLookup (al : List (String × TsType)) (n : String) : Option TsType :=
  (al.find? (fun p => p.1 == n)).map (fun p => p.2)

/-- `obj[k] = v` on a property mapping (insertion-ordered, replace in place). -/
def propInsert (ps : List (String × TypeInfo)) (k : String) (v : TypeInfo) : List (String × TypeInfo) :=
  if ps.any (fun p => p.1 == k) then
    ps.map (fun p => if p.1 == k then (k, v) else p)
  else ps ++ [(k, v)]

/-- The utility-type name list (`utilityTypes` in `src/lib/parser.ts`). -/
def utilityTypeNames : List String :=
  ["Partial", "Required", "Pick", "Omit", "Readonly", "Record",
   "Lowercase", "Uppercase", "Capitalize", "Uncapitalize", "Promise", "Awaited"]

/-- Maps a recognised utility-type name to its tag (the `as UtilityType` cast in
the source); only ever applied to members of `utilityTypeNames`. -/
def utilityTagOf (n : String) : UtilityType :=
  if n = "Partial" then .uPartial
  else if n = "Required" then .uRequired
  else if n = "Pick" then .uPick
  else if n = "Omit" then .uOmit
  else if n = "Readonly" then .uReadonly
  else if n = "Record" then .uRecord
  else if n = "Lowercase" then .uLowercase
  else if n = "Uppercase" then .uUppercase
  else if n = "Capitalize" then .uCapitalize
  else if n = "Uncapitalize" then .uUncapitalize
  else if n = "Promise" then .uPromise
  else .uAwaited

mutual

/-- `getTypeInfo` from `src/lib/parser.ts` over the embedded AST.  The fuel
parameter bounds recursion depth (the source recurses unboundedly and would
overflow the stack on cyclic aliases); `none` means fuel exhaustion. -/
def getTypeInfoF : Nat → TsType → List (String × TsType) → Option TypeInfo
  | 0, _, _ => none
  | f+1, t, al =>
    match t with
    | .paren inner => getTypeInfoF f inner al
    | .arrayOf e => do
        let et ← getTypeInfoF f e al
        pure (arrayNode (some et))
    | .union ts => do
        let tis ← resolveList f ts al
        if tis.all (fun ti => ti.kind == Kind.literal) then
          pure (enumNode (tis.map (fun ti => ti.literalValue.getD (Prim.str "undefined"))))
        else
          pure (unionNode tis)
    | .inter ts => do
        let tis ← resolveList f ts al
        pure (intersectionNode tis)
    | .litStr s => pure (literalNode (Prim.str s))
    | .litNum q => pure (literalNode (Prim.num q))
    | .litTrue => pure (literalNode (Prim.bool true))
    | .litFalse => pure (literalNode (Prim.bool false))
    | .litOther txt => pure (literalNode (Prim.str txt))
    | .template raw => pure (templateNode raw)
    | .tuple elems => do
        let tes ← resolveTupleElems f elems al
        pure (tupleNode tes)
    | .ref name args =>
        if name = "Date" then pure dateNode
        else if name = "Array" then
          match args.head? with
          | none => pure (arrayNode none)
          | some a => do
              let et ← getTypeInfoF f a al
              pure (arrayNode (some et))
        else if name = "Map" then do
          let kt ← resolveArgNoSub f (args.get? 0) al
          let vt ← resolveArgNoSub f (args.get? 1) al
          pure (mapNode kt vt)
        else if name = "Set" then do
          let et ← resolveArgNoSub f (args.get? 0) al
          pure (setNode et)
        else if utilityTypeNames.contains name then do
          let tas ← resolveListNoSub f args al
          pure (utilityNode name (utilityTagOf name) tas)
        else
          match aliasLookup al name with
          | some body => getTypeInfoF f body al
          | none => pure (unknownNode name)
    | .typeLit members => do
        let (props, idx) ← resolveMembers f members al [] none
        match idx with
        | some (kpn, kt, vt) =>
            if props.isEmpty then
              let keyTypeArg := kt.getD strNode
              let keyTypeArg :=
                match kpn with
                | some n => if n.isEmpty then keyTypeArg else keyTypeArg.withKeyHint (some n)
                | none => keyTypeArg
              pure (utilityNode "Record" .uRecord [keyTypeArg, vt.getD (TypeInfo.base "unknown" .unknown)])
            else pure (objectNode props)
        | none => pure (objectNode props)
    | .strKw => pure strNode
    | .numKw => pure numNode
    | .boolKw => pure boolNode
    | .anyKw => pure (TypeInfo.base "any" .unknown)
    | .otherKw txt => pure (TypeInfo.base (strLower txt) .unknown)
termination_by structural f _ _ => f

/-- `getTypeInfoWithoutResolving`: keeps type references as `unknown` nodes so
their names survive for generation-time hints. -/
def getTypeInfoWithoutResolvingF : Nat → TsType → List (String × TsType) → Option TypeInfo
  | 0, _, _ => none
  | f+1, t, al =>
    match t with
    | .ref name _ => pure (unknownNode name)
    | _ => getTypeInfoF f t al
termination_by structural f _ _ => f

/-- Resolves a list of union/intersection members in order. -/
def resolveList : Nat → List TsType → List (String × TsType) → Option (List TypeInfo)
  | 0, _, _ => none
  | _+1, [], _ => pure []
  | f+1, t :: ts, al => do
      let ti ← getTypeInfoF f t al
      let tis ← resolveList f ts al
      pure (ti :: tis)
termination_by structural f _ _ => f

/-- Resolves the arguments of the built-in generic / utility forms without alias
substitution. -/
def resolveListNoSub : Nat → List TsType → List (String × TsType) → Option (List TypeInfo)
  | 0, _, _ => none
  | _+1, [], _ => pure []
  | f+1, t :: ts, al => do
      let ti ← getTypeInfoWithoutResolvingF f t al
      let tis ← resolveListNoSub f ts al
      pure (ti :: tis)
termination_by structural f _ _ => f

/-- Resolves an optional generic argument (`typeArguments?.[i]`), without alias
substitution; an absent argument stays absent. -/
def resolveArgNoSub : Nat → Option TsType → List (String × TsType) → Option (Option TypeInfo)
  | 0, _, _ => none
  | f+1, o, al =>
    match o with
    | none => pure none
    | some tt => do
        let ti ← getTypeInfoWithoutResolvingF f tt al
        pure (some ti)
termination_by structural f _ _ => f

/-- Resolves tuple elements in order, each without alias substitution; a named
element keeps its name as a generation hint. -/
def resolveTupleElems : Nat → List (Option String × TsType) → List (String × TsType) → Option (List (Option String × TypeInfo))
  | 0, _, _ => none
  | _+1, [], _ => pure []
  | f+1, (nm, tt) :: rest, al => do
      let ti ← getTypeInfoWithoutResolvingF f tt al
      let tes ← resolveTupleElems f rest al
      pure ((nm, ti) :: tes)
termination_by structural f _ _ => f

/-- Processes the members of an interface body or type literal in order:
property signatures accumulate into the property mapping (with the
`isOptional` flag and the `typeHint` overlay for direct type references), and
the last index signature wins. -/
def resolveMembers : Nat → List TsMemberE → List (String × TsType) → List (String × TypeInfo) → Option IndexSigR → Option ((List (String × TypeInfo)) × Option IndexSigR)
  | 0, _, _, _, _ => none
  | _+1, [], _, acc, idx => pure (acc, idx)
  | f+1, m :: rest, al, acc, idx =>
    match m with
    | .inl (pn, opt, oty) => do
        let typeHint : Option String :=
          match oty with
          | some (.ref n _) => some n
          | _ => none
        let ti ← match oty with
          | none => pure (TypeInfo.base "unknown" Kind.unknown)
          | some tt => getTypeInfoF f tt al
        resolveMembers f rest al (propInsert acc pn (ti.withOptHint opt (jsOrOptStr typeHint ti.typeHint))) idx
    | .inr (kpn, kt, vt) => do
        let ktr ← match kt with
          | none => pure none
          | some tt => do
              let ti ← getTypeInfoWithoutResolvingF f tt al
              pure (some ti)
        let vtr ← match vt with
          | none => pure none
          | some tt => do
              let ti ← getTypeInfoWithoutResolvingF f tt al
              pure (some ti)
        resolveMembers f rest al acc (some (kpn, ktr, vtr))
termination_by structural f _ _ _ _ => f

end

/-- Second pass of `parseTypeScriptInterface`: visits every declaration in
order.  An interface pushes one entity declaration; a type alias whose body is
a type literal pushes an entity declaration and then its pseudo-interface
(`__value`) form; any other type alias pushes only the pseudo-interface form. -/
def parseVisit (f : Nat) (al : List (String × TsType)) : List TsDecl → Option (List InterfaceInfo)
  | [] => pure []
  | d :: rest => do
      let here ← match d with
        | .interfaceDecl n members => do
            let (props, _) ← resolveMembers f members al [] none
            pure [InterfaceInfo.mk n props]
        | .typeAliasDecl n ty => do
            let structural ← match ty with
              | .typeLit members => do
                  let (props, _) ← resolveMembers f members al [] none
                  pure [InterfaceInfo.mk n props]
              | _ => pure ([] : List InterfaceInfo)
            let ti ← getTypeInfoF f ty al
            pure (structural ++ [InterfaceInfo.mk n [("__value", ti)]])
      let rest' ← parseVisit f al rest
      pure (here ++ rest')

/-- `parseTypeScriptInterface` from `src/lib/parser.ts`: the alias-collection
pass followed by the visit pass. -/
def parseTypeScriptInterface (f : Nat) (decls : List TsDecl) : Option (List InterfaceInfo) :=
  parseVisit f (collectTypeAliases decls) decls

/-- `generateStringValue` from the generator: ordered substring dispatch on the
lowercased hint over the semantic-category table. -/
def generateStringValue (fieldName : String) (st : Rng) : String × Rng :=
  if strIncludes fieldName "email" then fakerEmail st
  else if ["username", "user"].any (strIncludes fieldName) then fakerUsername st
  else if strIncludes fieldName "password" then fakerPassword st
  else if strIncludes fieldName "phone" then fakerPhone st
  else if ["url", "website"].any (strIncludes fieldName) then fakerUrl st
  else if ["avatar", "image"].any (strIncludes fieldName) then fakerAvatar st
  else if strIncludes fieldName "color" then fakerColor st
  else if strIncludes fieldName "country" then fakerCountry st
  else if strIncludes fieldName "city" then fakerCity st
  else if ["street", "address"].any (strIncludes fieldName) then fakerStreetAddress st
  else if ["zipcode", "zip", "postal"].any (strIncludes fieldName) then fakerZipCode st
  else if ["state", "province"].any (strIncludes fieldName) then fakerState st
  else if ["company", "organization", "org"].any (strIncludes fieldName) then fakerCompany st
  else if ["job", "title", "position"].any (strIncludes fieldName) then fakerJobTitle st
  else if ["description", "bio"].any (strIncludes fieldName) then loremParagraph st
  else if ["firstname", "first"].any (strIncludes fieldName) then fakerFirstName st
  else if ["lastname", "last"].any (strIncludes fieldName) then fakerLastName st
  else if strIncludes fieldName "name" && !(strIncludes fieldName "username") then fakerFullName st
  else if ["uuid", "id"].any (strIncludes fieldName) then fakerUuid st
  else if strIncludes fieldName "currency" then fakerCurrencyCode st
  else if ["price", "amount"].any (strIncludes fieldName) then fakerPriceString st
  else if strIncludes fieldName "product" then fakerProductName st
  else if strIncludes fieldName "department" then fakerDepartment st
  else if ["text", "content"].any (strIncludes fieldName) then loremSentence st
  else loremWord st

/-- `generateNumberValue` from the generator: ordered substring dispatch on the
lowercased hint over the numeric-category table. -/
def generateNumberValue (fieldName : String) (st : Rng) : Rat × Rng :=
  if strIncludes fieldName "age" then
    let (v, st') := fakerInt 18 80 st; ((v : Rat), st')
  else if strIncludes fieldName "year" then
    let (v, st') := fakerInt 1900 2024 st; ((v : Rat), st')
  else if strIncludes fieldName "month" then
    let (v, st') := fakerInt 1 12 st; ((v : Rat), st')
  else if strIncludes fieldName "day" then
    let (v, st') := fakerInt 1 31 st; ((v : Rat), st')
  else if strIncludes fieldName "hour" then
    let (v, st') := fakerInt 0 23 st; ((v : Rat), st')
  else if ["minute", "second"].any (strIncludes fieldName) then
    let (v, st') := fakerInt 0 59 st; ((v : Rat), st')
  else if ["price", "amount", "cost"].any (strIncludes fieldName) then
    fakerFloatRange 0 1000 2 st
  else if ["quantity", "count"].any (strIncludes fieldName) then
    let (v, st') := fakerInt 1 100 st; ((v : Rat), st')
  else if ["percent", "rate"].any (strIncludes fieldName) then
    let (v, st') := fakerInt 0 100 st; ((v : Rat), st')
  else if strIncludes fieldName "rating" then
    fakerFloatRange 0 5 1 st
  else if ["latitude", "lat"].any (strIncludes fieldName) then
    fakerLatitude st
  else if ["longitude", "lng", "lon"].any (strIncludes fieldName) then
    fakerLongitude st
  else
    let (v, st') := fakerInt 1 1000 st; ((v : Rat), st')

/-- `generatePrimitiveValue` from the generator: primitive leaves via the
field-semantics heuristic; the hint is `typeHint || fieldName`, lowercased.
An `unknown` kind (unresolved symbol) and any unhandled kind yield `null`
(reported with a console warning in the source, never raised). -/
def generatePrimitiveValue (fieldName : String) (t : TypeInfo) (st : Rng) : Value × Rng :=
  let lowerFieldName := strLower (jsOrStr t.typeHint fieldName)
  match t.kind with
  | .string =>
      let (s, st') := generateStringValue lowerFieldName st
      (.str s, st')
  | .number =>
      let (q, st') := generateNumberValue lowerFieldName st
      (.num q, st')
  | .boolean =>
      let (b, st') := fakerBoolean st
      (.bool b, st')
  | .date =>
      let (s, st') := fakerDateRecentISO st
      (.str s, st')
  | .unknown => (.null, st)
  | _ => (.null, st)

/-- Word character test of the template placeholder regex `\w`. -/
def isWordChar (c : Char) : Bool := c.isAlphanum || c == '_'

/-- Splits a backtick-stripped template pattern into literal-text and
placeholder segments, mirroring `replace(/\$\{(\w+)\}/g, ...)`; the fuel is
instantiated with the character count, which always suffices. -/
def scanTemplateF : Nat → List Char → List (Sum String String)
  | 0, _ => []
  | _+1, [] => []
  | f+1, '$' :: '\x7b' :: rest =>
      let nmChars := rest.takeWhile isWordChar
      let rest' := rest.dropWhile isWordChar
      (match nmChars, rest' with
       | _ :: _, '\x7d' :: tail => Sum.inr (String.mk nmChars) :: scanTemplateF f tail
       | _, _ => Sum.inl "$" :: scanTemplateF f ('\x7b' :: rest))
  | f+1, c :: rest => Sum.inl (String.mk [c]) :: scanTemplateF f rest
termination_by structural f _ => f

/-- Generation-time errors: a thrown JavaScript exception, or fuel exhaustion
standing for the unbounded recursion of the source. -/
inductive GErr : Type where
  | thrown (msg : String)
  | fuelOut
deriving DecidableEq, Repr

/-- Result of a generator step: an error or a value with the advanced stream. -/
abbrev GenRes (α : Type) := Except GErr (α × Rng)

/-- JavaScript `String(...)` of a primitive constant. -/
def primToJsString : Prim → String
  | .str s => s
  | .num q => ratToJsString q
  | .bool b => if b then "true" else "false"

/-- JavaScript `Set.add`: appends if not already present. -/
def addKeyName (ks : List String) (k : String) : List String :=
  if ks.contains k then ks else ks ++ [k]

mutual

/-- `extractKeyNames` from the Pick/Omit handler: recursively flattens a key
type (literal, enum, union, or alias reference) into an ordered set of
property names.  Fueled because alias references can be cyclic. -/
def extractKeyNamesF : Nat → Option TypeInfo → List InterfaceInfo → List String → Option (List String)
  | 0, _, _, _ => none
  | _+1, none, _, acc => pure acc
  | f+1, some t, ifaces, acc =>
    if t.kind == Kind.literal then
      pure (addKeyName acc (primToJsString (t.literalValue.getD (Prim.str "undefined"))))
    else if t.kind == Kind.enum && t.enumValues.isSome then
      pure ((t.enumValues.getD []).foldl (fun a v => addKeyName a (primToJsString v)) acc)
    else if t.kind == Kind.union && t.unionTypes.isSome then
      extractKeyNamesList f (t.unionTypes.getD []) ifaces acc
    else if t.kind == Kind.unknown then
      match ifaces.find? (fun i => i.name == t.name) with
      | some ta =>
          match lookupProp ta.properties "__value" with
          | some v => extractKeyNamesF f (some v) ifaces acc
          | none => pure acc
      | none => pure acc
    else pure acc
termination_by structural f _ _ _ => f

/-- Member-wise recursion of `extractKeyNames` through a union. -/
def extractKeyNamesList : Nat → List TypeInfo → List InterfaceInfo → List String → Option (List String)
  | 0, _, _, _ => none
  | _+1, [], _, acc => pure acc
  | f+1, t :: ts, ifaces, acc => do
      let acc' ← extractKeyNamesF f (some t) ifaces acc
      extractKeyNamesList f ts ifaces acc'
termination_by structural f _ _ _ => f

end

mutual

/-- `collectReferences` inside `findRootInterface`: the names referenced as
`unknown`-kind nodes anywhere in a property tree, recursing through array
elements, object properties and union members. -/
def collectReferences : TypeInfo → List String
  | .mk name kind _ _ aet opr _ ut _ _ _ _ _ _ _ _ _ _ _ =>
    (if kind == Kind.unknown && !name.isEmpty then [name] else [])
    ++ (match kind, aet with
        | Kind.array, some e => collectReferences e
        | _, _ => [])
    ++ (match kind, opr with
        | Kind.object, some ps => collectReferencesProps ps
        | _, _ => [])
    ++ (match kind, ut with
        | Kind.union, some ts => collectReferencesList ts
        | _, _ => [])
termination_by structural t => t

/-- `collectReferences` over the values of an object property mapping. -/
def collectReferencesProps : List (String × TypeInfo) → List String
  | [] => []
  | (_, t) :: rest => collectReferences t ++ collectReferencesProps rest
termination_by structural l => l

/-- `collectReferences` over the members of a union. -/
def collectReferencesList : List TypeInfo → List String
  | [] => []
  | t :: rest => collectReferences t ++ collectReferencesList rest
termination_by structural l => l

end

/-- Whether a declaration is an alias pseudo-interface
(`iface.properties.__value` truthiness). -/
def isAliasDecl (i : InterfaceInfo) : Bool :=
  (lookupProp i.properties "__value").isSome

/-- `findRootInterface` from the generator: the first non-alias declaration
whose name is not referenced as an `unknown`-kind node in any declaration's
property tree, falling back to the first non-alias declaration; `none` models
the `undefined` the source produces when no non-alias declaration exists. -/
def findRootInterface (interfaces : List InterfaceInfo) : Option InterfaceInfo :=
  let referencedNames :=
    (interfaces.map (fun i => (i.properties.map (fun p => collectReferences p.2)).flatten)).flatten
  let actualInterfaces := interfaces.filter (fun i => !isAliasDecl i)
  let rootInterfaces := actualInterfaces.filter (fun i => !referencedNames.contains i.name)
  match rootInterfaces with
  | r :: _ => some r
  | [] => actualInterfaces.head?

/-- The backtick character (stripped from template patterns). -/
def btChar : Char := "`".front

/-- `pattern.replace(/`/g, '')`. -/
def stripBackticks (s : String) : String :=
  String.mk (s.toList.filter (fun c => c != btChar))

/-- The synthetic Record node the `map` handler builds:
key/value types default to the string node when absent. -/
def syntheticRecordOfMap (t : TypeInfo) : TypeInfo :=
  utilityNode "Record" .uRecord [t.mapKeyType.getD strNode, t.mapValueType.getD strNode]

/-- JS-object construction by repeated assignment `props[k] = v` over an entry
list (used for the transient declarations built by Partial/Required/Pick/Omit). -/
def buildProps (ps : List (String × TypeInfo)) : List (String × TypeInfo) :=
  ps.foldl (fun acc p => propInsert acc p.1 p.2) []

mutual

/-- `generateValue` from the generator: the recursive dispatch over every
`TypeInfo` kind.  The fuel parameter bounds total recursion (the source
recurses unboundedly on cyclic entity references); every recursive call uses
strictly smaller fuel and `GErr.fuelOut` models non-termination. -/
def generateValue : Nat → String → TypeInfo → List InterfaceInfo → Rng → GenRes Value
  | 0, _, _, _, _ => .error .fuelOut
  | f+1, fieldName, t, ifaces, st =>
    if t.kind == Kind.literal then
      .ok (match t.literalValue with
           | some p => primToValue p
           | none => .null, st)
    else if t.kind == Kind.template && t.templatePattern.any (fun p => !p.isEmpty) then
      generateTemplateValue f fieldName (t.templatePattern.getD "") ifaces st
    else if t.kind == Kind.enum && t.enumValues.isSome then
      match arrayElement (t.enumValues.getD []) st with
      | (some p, st') => .ok (primToValue p, st')
      | (none, _) => .error (.thrown "FakerError: Cannot get a random element from an empty array")
    else if t.kind == Kind.unknown && (ifaces.find? (fun i => i.name == t.name)).isSome then
      let ri := (ifaces.find? (fun i => i.name == t.name)).getD ⟨"", []⟩
      match lookupProp ri.properties "__value" with
      | some aliased => generateValue f t.name aliased ifaces st
      | none =>
          match generateObjectFromInterface f ri ifaces st with
          | .ok (fields, st') => .ok (.obj fields, st')
          | .error e => .error e
    else if t.kind == Kind.array && t.arrayElementType.isSome then
      let (length, st1) := fakerInt 1 5 st
      match genArrayItems f length fieldName (t.arrayElementType.getD strNode) ifaces st1 with
      | .ok (vs, st') => .ok (.arr vs, st')
      | .error e => .error e
    else if t.kind == Kind.tuple && t.tupleElements.isSome then
      match genTupleItems f (t.tupleElements.getD []) fieldName ifaces st with
      | .ok (vs, st') => .ok (.arr vs, st')
      | .error e => .error e
    else if t.kind == Kind.map then
      generateValue f fieldName (syntheticRecordOfMap t) ifaces st
    else if t.kind == Kind.set then
      let (size, st1) := fakerInt 2 5 st
      match genSetItems f size fieldName t.setElementType ifaces st1 with
      | .ok (vs, st') => .ok (.arr vs, st')
      | .error e => .error e
    else if t.kind == Kind.utility && t.utilityType.isSome then
      let uty := t.utilityType.getD .uAwaited
      let args := t.utilityTypeArgs.getD []
      match args.get? 0 with
      | none => .ok (.null, st)
      | some baseType =>
        if uty == .uLowercase || uty == .uUppercase || uty == .uCapitalize || uty == .uUncapitalize then
          let fieldHint :=
            if baseType.kind == Kind.unknown || baseType.kind == Kind.string then
              (if baseType.name == "string" then fieldName else baseType.name)
            else fieldName
          match generateValue f fieldHint baseType ifaces st with
          | .ok (v, st') =>
              let s := valueToString v
              if uty == .uLowercase then .ok (.str (strLower s), st')
              else if uty == .uUppercase then .ok (.str (strUpper s), st')
              else if uty == .uCapitalize then .ok (.str (strUpper (strTake s 1) ++ strLower (strDrop s 1)), st')
              else .ok (.str (strLower (strTake s 1) ++ strDrop s 1), st')
          | .error e => .error e
        else if baseType.kind == Kind.unknown && (uty == .uPartial || uty == .uRequired)
            && (ifaces.find? (fun i => i.name == baseType.name)).isSome then
          let ri := (ifaces.find? (fun i => i.name == baseType.name)).getD ⟨"", []⟩
          let isOpt := uty == .uPartial
          let partialIface : InterfaceInfo :=
            ⟨ri.name, buildProps (ri.properties.map (fun p => (p.1, p.2.withOpt isOpt)))⟩
          match generateObjectFromInterface f partialIface ifaces st with
          | .ok (fields, st') => .ok (.obj fields, st')
          | .error e => .error e
        else if uty == .uReadonly || uty == .uPromise then
          generateValue f fieldName baseType ifaces st
        else if uty == .uRecord && (args.get? 0).isSome && (args.get? 1).isSome then
          let keyType := (args.get? 0).getD strNode
          let valueType := (args.get? 1).getD strNode
          let (size, st1) := fakerInt 2 5 st
          match genRecordSlots f size fieldName keyType valueType ifaces [] st1 with
          | .ok (fields, st') => .ok (.obj fields, st')
          | .error e => .error e
        else if (uty == .uPick || uty == .uOmit) && baseType.kind == Kind.unknown
            && (ifaces.find? (fun i => i.name == baseType.name)).isSome then
          let ri := (ifaces.find? (fun i => i.name == baseType.name)).getD ⟨"", []⟩
          match extractKeyNamesF f (args.get? 1) ifaces [] with
          | none => .error .fuelOut
          | some keyNames =>
            let filteredIface : InterfaceInfo :=
              ⟨ri.name, buildProps (ri.properties.filter (fun p =>
                if uty == .uPick then keyNames.contains p.1 else !(keyNames.contains p.1)))⟩
            match generateObjectFromInterface f filteredIface ifaces st with
            | .ok (fields, st') => .ok (.obj fields, st')
            | .error e => .error e
        else
          generateValue f fieldName baseType ifaces st
    else if t.kind == Kind.object && t.objectProperties.isSome then
      match genProps f (t.objectProperties.getD []) ifaces [] st with
      | .ok (fields, st') => .ok (.obj fields, st')
      | .error e => .error e
    else if t.kind == Kind.union && t.unionTypes.isSome then
      match arrayElement (t.unionTypes.getD []) st with
      | (some sel, st1) => generateValue f fieldName sel ifaces st1
      | (none, _) => .error (.thrown "FakerError: Cannot get a random element from an empty array")
    else if t.kind == Kind.intersection && t.intersectionTypes.isSome then
      match genIntersection f (t.intersectionTypes.getD []) fieldName ifaces [] st with
      | .ok (fields, st') => .ok (.obj fields, st')
      | .error e => .error e
    else
      let (v, st') := generatePrimitiveValue fieldName t st
      .ok (v, st')
termination_by structural f _ _ _ _ => f

/-- `generateObjectFromInterface` from the generator: builds the property
mapping of one declaration (the loop body is shared with the inline-object
case of `generateValue`, whose source code is identical). -/
def generateObjectFromInterface : Nat → InterfaceInfo → List InterfaceInfo → Rng → GenRes (List (String × Value))
  | 0, _, _, _ => .error .fuelOut
  | f+1, interfaceInfo, ifaces, st => genProps f interfaceInfo.properties ifaces [] st
termination_by structural f _ _ _ => f

/-- The property loop: an optional property is skipped when the seeded
`random()` draw is below 0.3, otherwise the property is generated with its own
name as hint and assigned. -/
def genProps : Nat → List (String × TypeInfo) → List InterfaceInfo → List (String × Value) → Rng → GenRes (List (String × Value))
  | 0, _, _, _, _ => .error .fuelOut
  | _+1, [], _, acc, st => .ok (acc, st)
  | f+1, (pn, pt) :: rest, ifaces, acc, st =>
    if pt.isOptional then
      let (v, st1) := fakerFloat01 st
      if v < 300 then genProps f rest ifaces acc st1
      else
        match generateValue f pn pt ifaces st1 with
        | .ok (val, st2) => genProps f rest ifaces (objInsert acc pn val) st2
        | .error e => .error e
    else
      match generateValue f pn pt ifaces st with
      | .ok (val, st2) => genProps f rest ifaces (objInsert acc pn val) st2
      | .error e => .error e
termination_by structural f _ _ _ _ => f

/-- The `Array.from({length}, ...)` loop of the array case. -/
def genArrayItems : Nat → Nat → String → TypeInfo → List InterfaceInfo → Rng → GenRes (List Value)
  | 0, _, _, _, _, _ => .error .fuelOut
  | _+1, 0, _, _, _, st => .ok ([], st)
  | f+1, n+1, fieldName, elemT, ifaces, st =>
    match generateValue f fieldName elemT ifaces st with
    | .ok (v, st1) =>
        match genArrayItems f n fieldName elemT ifaces st1 with
        | .ok (vs, st2) => .ok (v :: vs, st2)
        | .error e => .error e
    | .error e => .error e
termination_by structural f _ _ _ _ _ => f

/-- The set loop: element values via the element type, or a lorem word when
the element type is absent. -/
def genSetItems : Nat → Nat → String → Option TypeInfo → List InterfaceInfo → Rng → GenRes (List Value)
  | 0, _, _, _, _, _ => .error .fuelOut
  | _+1, 0, _, _, _, st => .ok ([], st)
  | f+1, n+1, fieldName, elemT, ifaces, st =>
    match elemT with
    | some e =>
        match generateValue f fieldName e ifaces st with
        | .ok (v, st1) =>
            match genSetItems f n fieldName elemT ifaces st1 with
            | .ok (vs, st2) => .ok (v :: vs, st2)
            | .error e' => .error e'
        | .error e' => .error e'
    | none =>
        let (w, st1) := loremWord st
        match genSetItems f n fieldName elemT ifaces st1 with
        | .ok (vs, st2) => .ok (Value.str w :: vs, st2)
        | .error e' => .error e'
termination_by structural f _ _ _ _ _ => f

/-- The tuple loop: each element in declared order, hinted by its own name
when present, else by the outer field name. -/
def genTupleItems : Nat → List (Option String × TypeInfo) → String → List InterfaceInfo → Rng → GenRes (List Value)
  | 0, _, _, _, _ => .error .fuelOut
  | _+1, [], _, _, st => .ok ([], st)
  | f+1, (nm, et) :: rest, fieldName, ifaces, st =>
    let elementHint := jsOrStr nm fieldName
    match generateValue f elementHint et ifaces st with
    | .ok (v, st1) =>
        match genTupleItems f rest fieldName ifaces st1 with
        | .ok (vs, st2) => .ok (v :: vs, st2)
        | .error e => .error e
    | .error e => .error e
termination_by structural f _ _ _ _ => f

/-- The Record loop: per slot, a string-coerced key (hinted by `keyHint`, the
key type's own name for references, or the literal `'key'`) and a value
(hinted by the field name for primitive value types, else by the value type's
name); later key collisions overwrite. -/
def genRecordSlots : Nat → Nat → String → TypeInfo → TypeInfo → List InterfaceInfo → List (String × Value) → Rng → GenRes (List (String × Value))
  | 0, _, _, _, _, _, _, _ => .error .fuelOut
  | _+1, 0, _, _, _, _, acc, st => .ok (acc, st)
  | f+1, n+1, fieldName, keyType, valueType, ifaces, acc, st =>
    let keyFieldHint := jsOrStr keyType.keyHint (if keyType.kind == Kind.unknown then keyType.name else "key")
    match generateValue f keyFieldHint keyType ifaces st with
    | .ok (kv, st1) =>
        let key := valueToString kv
        let isPrimitive := ["string", "number", "boolean"].contains valueType.name
        let valueFieldHint := if isPrimitive then fieldName else jsOrStr (some valueType.name) fieldName
        match generateValue f valueFieldHint valueType ifaces st1 with
        | .ok (vv, st2) => genRecordSlots f n fieldName keyType valueType ifaces (objInsert acc key vv) st2
        | .error e => .error e
    | .error e => .error e
termination_by structural f _ _ _ _ _ _ _ => f

/-- The intersection loop: every member is generated; non-array object results
are shallow-merged in member order, other results are discarded. -/
def genIntersection : Nat → List TypeInfo → String → List InterfaceInfo → List (String × Value) → Rng → GenRes (List (String × Value))
  | 0, _, _, _, _, _ => .error .fuelOut
  | _+1, [], _, _, acc, st => .ok (acc, st)
  | f+1, t :: rest, fieldName, ifaces, acc, st =>
    match generateValue f fieldName t ifaces st with
    | .ok (v, st1) =>
        let acc' := match v with
          | .obj fields => objAssign acc fields
          | _ => acc
        genIntersection f rest fieldName ifaces acc' st1
    | .error e => .error e
termination_by structural f _ _ _ _ _ => f

/-- `generateTemplateValue` from the generator: strips backticks, splits the
pattern on `${identifier}` placeholders, and concatenates the stringified
generated pieces. -/
def generateTemplateValue : Nat → String → String → List InterfaceInfo → Rng → GenRes Value
  | 0, _, _, _, _ => .error .fuelOut
  | f+1, fieldName, pattern, ifaces, st =>
    let cs := (stripBackticks pattern).toList
    match genTemplateSegs f (scanTemplateF (cs.length + 1) cs) fieldName ifaces st with
    | .ok (s, st') => .ok (.str s, st')
    | .error e => .error e
termination_by structural f _ _ _ _ => f

/-- The placeholder loop of `generateTemplateValue`: a placeholder whose name
is case-insensitively `number`/`string`/`boolean` becomes a synthetic
primitive node generated under the surrounding field name; any other name is
treated as an entity/alias reference hinted by its own name. -/
def genTemplateSegs : Nat → List (Sum String String) → String → List InterfaceInfo → Rng → GenRes String
  | 0, _, _, _, _ => .error .fuelOut
  | _+1, [], _, _, st => .ok ("", st)
  | f+1, Sum.inl txt :: rest, fieldName, ifaces, st =>
    match genTemplateSegs f rest fieldName ifaces st with
    | .ok (s, st') => .ok (txt ++ s, st')
    | .error e => .error e
  | f+1, Sum.inr nm :: rest, fieldName, ifaces, st =>
    let kindStr := strLower nm
    if kindStr == "number" || kindStr == "string" || kindStr == "boolean" then
      let k : Kind := if kindStr == "number" then .number else if kindStr == "string" then .string else .boolean
      let (v, st1) := generatePrimitiveValue fieldName (TypeInfo.base nm k) st
      match genTemplateSegs f rest fieldName ifaces st1 with
      | .ok (s, st2) => .ok (valueToString v ++ s, st2)
      | .error e => .error e
    else
      match generateValue f nm (unknownNode nm) ifaces st with
      | .ok (v, st1) =>
          match genTemplateSegs f rest fieldName ifaces st1 with
          | .ok (s, st2) => .ok (valueToString v ++ s, st2)
          | .error e => .error e
      | .error e => .error e
termination_by structural f _ _ _ _ => f

end

/-- The result of `generateMockData`: the resolved seed and the generated
records. -/
structure MockResult : Type where
  seed : Nat
  result : List Value

/-- The `for (let i = 0; i < quantity; i++)` loop of `generateMockData`: when
the declaration list is non-empty, each iteration generates one record from
the root declaration; a missing root (no non-alias declaration) models the
`TypeError` the source throws by dereferencing `undefined`. -/
def genLoop (fuel n : Nat) (interfaces : List InterfaceInfo) (st : Rng) : GenRes (List Value) :=
  match n with
  | 0 => .ok ([], st)
  | n+1 =>
    if interfaces.length > 0 then
      match findRootInterface interfaces with
      | none => .error (.thrown "TypeError: Cannot read properties of undefined")
      | some rootInterface =>
        match generateObjectFromInterface fuel rootInterface interfaces st with
        | .ok (fields, st1) =>
            match genLoop fuel n interfaces st1 with
            | .ok (vs, st2) => .ok (Value.obj fields :: vs, st2)
            | .error e => .error e
        | .error e => .error e
    else
      genLoop fuel n interfaces st

/-- `generateMockData` from the generator: resolves quantity (default 1) and
seed (explicit, or derived from ambient `Math.random()` when absent), seeds
the stream once, and runs the generation loop.  The returned record carries
the resolved seed. -/
def generateMockData (fuel : Nat) (interfaces : List InterfaceInfo) (config : GenerationConfig) (ambient : Nat) : Except GErr MockResult :=
  let quantity := config.quantity.getD 1
  let seed := match config.seed with
    | some s => s
    | none => ambient % 1000000
  match genLoop fuel quantity interfaces (fakerSeedInit seed) with
  | .ok (vs, _) => .ok ⟨seed, vs⟩
  | .error e => .error e

/-- The names referenced as `unknown`-kind nodes anywhere in any declaration's
property tree (the `referencedNames` scan of `findRootInterface`). -/
def allReferencedNames (D : List InterfaceInfo) : List String :=
  (D.map (fun i => (i.properties.map (fun p => collectReferences p.2)).flatten)).flatten

/-- Modelled from the spec (the amended root-selector wording for claim C2):
the first non-alias declaration whose name is not referenced as an
`unknown`-kind node inside any declaration's property tree, its own included;
if every non-alias declaration is so referenced, the first non-alias
declaration overall. -/
def rootSelectorSpec (D : List InterfaceInfo) : Option InterfaceInfo :=
  let refs := allReferencedNames D
  match (D.filter (fun i => !isAliasDecl i)).find? (fun i => !refs.contains i.name) with
  | some r => some r
  | none => (D.filter (fun i => !isAliasDecl i)).head?

/-- The ordered key sequence produced by repeated JS-object assignment over a
key list: a fresh key appends, an existing key keeps its place. -/
def insKeys (ks : List String) : List String → List String
  | [] => ks
  | k :: rest => insKeys (if ks.any (fun x => x == k) then ks else ks ++ [k]) rest

/-- Projects the ordered key list out of a generated-object result. -/
def objKeyList (r : GenRes Value) : Option (List String) :=
  match r with
  | .ok (.obj fields, _) => some (fields.map Prod.fst)
  | _ => none

section

variable (n : String) (k : Kind) (o a : Bool) (aet : Option TypeInfo)
  (opr : Option (List (String × TypeInfo))) (ev : Option (List Prim))
  (ut it : Option (List TypeInfo)) (th : Option String) (lv : Option Prim)
  (tp : Option String) (uty : Option UtilityType) (uta : Option (List TypeInfo))
  (mkt mvt se : Option TypeInfo) (kh : Option String)
  (te : Option (List (Option String × TypeInfo)))

@[simp] theorem TypeInfo.name_mk :
    (TypeInfo.mk n k o a aet opr ev ut it th lv tp uty uta mkt mvt se kh te).name = n := rfl

@[simp] theorem TypeInfo.kind_mk :
    (TypeInfo.mk n k o a aet opr ev ut it th lv tp uty uta mkt mvt se kh te).kind = k := rfl

@[simp] theorem TypeInfo.isOptional_mk :
    (TypeInfo.mk n k o a aet opr ev ut it th lv tp uty uta mkt mvt se kh te).isOptional = o := rfl

@[simp] theorem TypeInfo.isArray_mk :
    (TypeInfo.mk n k o a aet opr ev ut it th lv tp uty uta mkt mvt se kh te).isArray = a := rfl

@[simp] theorem TypeInfo.arrayElementType_mk :
    (TypeInfo.mk n k o a aet opr ev ut it th lv tp uty uta mkt mvt se kh te).arrayElementType = aet := rfl

@[simp] theorem TypeInfo.objectProperties_mk :
    (TypeInfo.mk n k o a aet opr ev ut it th lv tp uty uta mkt mvt se kh te).objectProperties = opr := rfl

@[simp] theorem TypeInfo.enumValues_mk :
    (TypeInfo.mk n k o a aet opr ev ut it th lv tp uty uta mkt mvt se kh te).enumValues = ev := rfl

@[simp] theorem TypeInfo.unionTypes_mk :
    (TypeInfo.mk n k o a aet opr ev ut it th lv tp uty uta mkt mvt se kh te).unionTypes = ut := rfl

@[simp] theorem TypeInfo.intersectionTypes_mk :
    (TypeInfo.mk n k o a aet opr ev ut it th lv tp uty uta mkt mvt se kh te).intersectionTypes = it := rfl

@[simp] theorem TypeInfo.typeHint_mk :
    (TypeInfo.mk n k o a aet opr ev ut it th lv tp uty uta mkt mvt se kh te).typeHint = th := rfl

@[simp] theorem TypeInfo.literalValue_mk :
    (TypeInfo.mk n k o a aet opr ev ut it th lv tp uty uta mkt mvt se kh te).literalValue = lv := rfl

@[simp] theorem TypeInfo.templatePattern_mk :
    (TypeInfo.mk n k o a aet opr ev ut it th lv tp uty uta mkt mvt se kh te).templatePattern = tp := rfl

@[simp] theorem TypeInfo.utilityType_mk :
    (TypeInfo.mk n k o a aet opr ev ut it th lv tp uty uta mkt mvt se kh te).utilityType = uty := rfl

@[simp] theorem TypeInfo.utilityTypeArgs_mk :
    (TypeInfo.mk n k o a aet opr ev ut it th lv tp uty uta mkt mvt se kh te).utilityTypeArgs = uta := rfl

@[simp] theorem TypeInfo.mapKeyType_mk :
    (TypeInfo.mk n k o a aet opr ev ut it th lv tp uty uta mkt mvt se kh te).mapKeyType = mkt := rfl

@[simp] theorem TypeInfo.mapValueType_mk :
    (TypeInfo.mk n k o a aet opr ev ut it th lv tp uty uta mkt mvt se kh te).mapValueType = mvt := rfl

@[simp] theorem TypeInfo.setElementType_mk :
    (TypeInfo.mk n k o a aet opr ev ut it th lv tp uty uta mkt mvt se kh te).setElementType = se := rfl

@[simp] theorem TypeInfo.keyHint_mk :
    (TypeInfo.mk n k o a aet opr ev ut it th lv tp uty uta mkt mvt se kh te).keyHint = kh := rfl

@[simp] theorem TypeInfo.tupleElements_mk :
    (TypeInfo.mk n k o a aet opr ev ut it th lv tp uty uta mkt mvt se kh te).tupleElements = te := rfl

end

/-- C1: for every declaration list and config carrying an explicit seed, the
result of `generateMockData` is independent of the ambient randomness used
only for defaulted seeds: all randomness derives from the single stream
seeded once per call, so repeated calls with the same declarations and config
produce identical output. -/
theorem c1_seed_determinism (fuel : Nat) (D : List InterfaceInfo) (cfg : GenerationConfig)
    (s : Nat) (h : cfg.seed = some s) (amb1 amb2 : Nat) :
    generateMockData fuel D cfg amb1 = generateMockData fuel D cfg amb2 := by
  simp [generateMockData, h]

/-- Witness for C1 at a concrete declaration list, config and two distinct
ambient randomness values. -/
theorem c1_seed_determinism_witness :
    (GenerationConfig.mk (some 2) (some 42)).seed = some 42 ∧
    generateMockData 50 [⟨"User", [("id", strNode)]⟩] ⟨some 2, some 42⟩ 0
      = generateMockData 50 [⟨"User", [("id", strNode)]⟩] ⟨some 2, some 42⟩ 999999 :=
  ⟨rfl, c1_seed_determinism 50 [⟨"User", [("id", strNode)]⟩] ⟨some 2, some 42⟩ 42 rfl 0 999999⟩

/-- C7: generating a `map`-kind node is exactly generating the synthetic
Record utility node built from the map's key and value types (each defaulting
to the string node), under the same field-name hint, declaration table and
stream state. -/
theorem c7_map_record_equiv (f : Nat) (hint : String) (t : TypeInfo)
    (ifaces : List InterfaceInfo) (st : Rng) (h : t.kind = Kind.map) :
    generateValue (f+1) hint t ifaces st
      = generateValue f hint (syntheticRecordOfMap t) ifaces st := by
  simp [generateValue, h]

/-- Witness for C7 at a concrete `Map<string, number>` node. -/
theorem c7_map_record_equiv_witness :
    (mapNode (some strNode) (some numNode)).kind = Kind.map ∧
    generateValue 21 "m" (mapNode (some strNode) (some numNode)) [] 5
      = generateValue 20 "m" (syntheticRecordOfMap (mapNode (some strNode) (some numNode))) [] 5 :=
  ⟨rfl, c7_map_record_equiv 20 "m" (mapNode (some strNode) (some numNode)) [] 5 rfl⟩

/-- C8: a property typed as an `unknown`-kind reference whose name matches no
declaration generates the value `null` for that leaf without consuming the
stream and without raising; the surrounding record generation proceeds. -/
theorem c8_unresolved_symbol_null (f : Nat) (hint : String) (t : TypeInfo)
    (ifaces : List InterfaceInfo) (st : Rng) (hk : t.kind = Kind.unknown)
    (hfind : ifaces.find? (fun i => i.name == t.name) = none) :
    generateValue (f+1) hint t ifaces st = .ok (.null, st) := by
  simp [generateValue, hk, hfind, generatePrimitiveValue]

/-- Witness for C8: the unresolved leaf yields `null` via the theorem, and a
record containing such a property still generates, with the hole localised. -/
theorem c8_unresolved_symbol_null_witness :
    (unknownNode "Nope").kind = Kind.unknown ∧
    generateValue 5 "ref" (unknownNode "Nope") [] 99 = .ok (.null, 99) ∧
    generateObjectFromInterface 9 ⟨"R", [("a", literalNode (Prim.str "ok")), ("b", unknownNode "Nope")]⟩ [] 7
      = .ok ([("a", .str "ok"), ("b", .null)], 7) :=
  ⟨rfl, c8_unresolved_symbol_null 4 "ref" (unknownNode "Nope") [] 99 rfl rfl, rfl⟩

/-- C9: generating `Capitalize<T>` uppercases the first character of the base
string and forces every remaining character to lowercase, while
`Uncapitalize<T>` lowercases only the first character and leaves the rest
unchanged; in particular the base string `"aBC"` becomes `"Abc"` under
Capitalize (not `"ABC"`) and stays `"aBC"` under Uncapitalize. -/
theorem c9_capitalize_lowercases_rest (f : Nat) (hint : String)
    (ifaces : List InterfaceInfo) (st : Rng) (s : String) :
    generateValue (f+2) hint (utilityNode "Capitalize" .uCapitalize [literalNode (Prim.str s)]) ifaces st
      = .ok (.str (strUpper (strTake s 1) ++ strLower (strDrop s 1)), st) ∧
    generateValue (f+2) hint (utilityNode "Uncapitalize" .uUncapitalize [literalNode (Prim.str s)]) ifaces st
      = .ok (.str (strLower (strTake s 1) ++ strDrop s 1), st) ∧
    strUpper (strTake "aBC" 1) ++ strLower (strDrop "aBC" 1) = "Abc" ∧
    strLower (strTake "aBC" 1) ++ strDrop "aBC" 1 = "aBC" := by
  refine ⟨?_, ?_, rfl, rfl⟩ <;>
    simp [generateValue, utilityNode, literalNode, primToValue, valueToString]

/-- Counterexample to C2 as stated: on the empty declaration list with
`quantity = 1`, `generateMockData` succeeds with zero generated values, not
one — the loop body only pushes when the declaration list is non-empty. -/
theorem c2_counterexample :
    generateMockData 10 [] ⟨some 1, some 0⟩ 0 = .ok ⟨0, []⟩ ∧
    ([] : List Value).length ≠ 1 :=
  ⟨rfl, by decide⟩

/-- Counterexample to C4 as stated: with `E = {x: string, y?: string,
z: string}`, generating `Pick<E, "x" | "y">` at stream state 3 skips the
optional kept property `y` (the 0.3 roll), producing key set `{x}`, not
`{x, y}`. -/
theorem c4_counterexample :
    objKeyList (generateValue 20 "p"
        (utilityNode "Pick" .uPick [unknownNode "E", enumNode [Prim.str "x", Prim.str "y"]])
        [⟨"E", [("x", strNode), ("y", strNode.withOpt true), ("z", strNode)]⟩] 3)
      = some ["x"] ∧
    ["x"] ≠ ["x", "y"] :=
  ⟨rfl, by decide⟩

/-- Counterexample to C5 as stated: generating `Record<string, number>` at
stream state 14 draws colliding keys (the finite lorem vocabulary repeats and
later insertions overwrite), leaving a single-key mapping — outside the
claimed 2–5 bound. -/
theorem c5_counterexample :
    objKeyList (generateValue 20 "data"
        (utilityNode "Record" .uRecord [strNode, numNode]) [] 14)
      = some ["lorem"] ∧
    ["lorem"].length < 2 :=
  ⟨rfl, by decide⟩

/-- Counterexample to C6 as stated: a property whose declared type references
the structural type alias `A` (`type A = { x: string }`, an object-like,
entity-shaped declaration) is substituted at parse time into an inline
`object` node — not kept as an `unknown` reference. -/
theorem c6_counterexample :
    (match parseTypeScriptInterface 10
        [TsDecl.typeAliasDecl "A" (.typeLit [TsMemberE.propSig "x" false (some .strKw)]),
         TsDecl.interfaceDecl "B" [TsMemberE.propSig "a" false (some (.ref "A" []))]] with
      | some ifaces => (ifaces.find? (fun (i : InterfaceInfo) => i.name == "B")).bind
          (fun (b : InterfaceInfo) => (lookupProp b.properties "a").map TypeInfo.kind)
      | none => none) = some Kind.object ∧
    Kind.object ≠ Kind.unknown :=
  ⟨rfl, by decide⟩

/-- C10: when every declaration is an alias pseudo-interface (single reserved
`__value` property) and at least one record is requested, `generateMockData`
throws: the root selector filters all aliases out, finds no entity
declaration, and the generator dereferences the missing declaration. -/
theorem c10_all_alias_throws (fuel : Nat) (D : List InterfaceInfo) (cfg : GenerationConfig)
    (amb n : Nat) (hne : D ≠ []) (hall : ∀ i ∈ D, isAliasDecl i = true)
    (hq : cfg.quantity = some n) (hn : 1 ≤ n) :
    generateMockData fuel D cfg amb
      = .error (.thrown "TypeError: Cannot read properties of undefined") := by
  obtain ⟨m, rfl⟩ : ∃ m, n = m + 1 := ⟨n - 1, by omega⟩
  have hfilter : D.filter (fun i => !isAliasDecl i) = [] := by
    rw [List.filter_eq_nil_iff]
    intro i hi
    simp [hall i hi]
  have hroot : findRootInterface D = none := by
    simp [findRootInterface, hfilter]
  have hlen : 0 < D.length := List.length_pos.mpr hne
  simp [generateMockData, hq, genLoop, hroot, hlen]

/-- Witness for C10 at a single alias declaration and quantity 1. -/
theorem c10_all_alias_throws_witness :
    ([⟨"T", [("__value", strNode)]⟩] : List InterfaceInfo) ≠ [] ∧
    isAliasDecl ⟨"T", [("__value", strNode)]⟩ = true ∧
    generateMockData 10 [⟨"T", [("__value", strNode)]⟩] ⟨some 1, some 0⟩ 0
      = .error (.thrown "TypeError: Cannot read properties of undefined") :=
  ⟨List.cons_ne_nil _ _, rfl,
   c10_all_alias_throws 10 [⟨"T", [("__value", strNode)]⟩] ⟨some 1, some 0⟩ 0 1
     (List.cons_ne_nil _ _)
     (by intro i hi; rw [List.mem_singleton] at hi; subst hi; rfl)
     rfl (by decide)⟩

theorem find?_eq_head?_filter {α : Type} (p : α → Bool) (l : List α) :
    l.find? p = (l.filter p).head? := by
  induction l with
  | nil => rfl
  | cons a l ih =>
    cases h : p a with
    | true => rw [List.find?_cons_of_pos _ h, List.filter_cons_of_pos h]; rfl
    | false => rw [List.find?_cons_of_neg _ (by simp [h]), List.filter_cons_of_neg (by simp [h]), ih]

theorem findRootInterface_eq_spec (D : List InterfaceInfo) :
    findRootInterface D = rootSelectorSpec D := by
  unfold findRootInterface rootSelectorSpec allReferencedNames
  simp only [find?_eq_head?_filter]
  cases h : (D.filter (fun i => !isAliasDecl i)).filter
      (fun i => !((D.map (fun i => (i.properties.map (fun p => collectReferences p.2)).flatten)).flatten).contains i.name) with
  | nil => simp [h]
  | cons r rest => simp [h]

theorem genLoop_ok (fuel : Nat) (D : List InterfaceInfo) (hne : D ≠ []) :
    ∀ n st vs st', genLoop fuel n D st = .ok (vs, st') →
      vs.length = n ∧ ∀ v ∈ vs, ∃ root fields stA stB,
        findRootInterface D = some root ∧
        generateObjectFromInterface fuel root D stA = .ok (fields, stB) ∧ v = .obj fields := by
  intro n
  induction n with
  | zero =>
    intro st vs st' h
    simp only [genLoop] at h
    cases h
    exact ⟨rfl, by simp⟩
  | succ m ih =>
    intro st vs st' h
    have hlen : 0 < D.length := List.length_pos.mpr hne
    cases hroot : findRootInterface D with
    | none => simp [genLoop, if_pos hlen, hroot] at h
    | some root =>
      cases hobj : generateObjectFromInterface fuel root D st with
      | error e => simp [genLoop, if_pos hlen, hroot, hobj] at h
      | ok pr =>
        obtain ⟨fields, st1⟩ := pr
        cases hrest : genLoop fuel m D st1 with
        | error e => simp [genLoop, if_pos hlen, hroot, hobj, hrest] at h
        | ok pr2 =>
          obtain ⟨vs2, st2⟩ := pr2
          simp only [genLoop, if_pos hlen, hroot, hobj, hrest] at h
          obtain ⟨hl, hmem⟩ := ih st1 vs2 st2 hrest
          rw [hroot] at hmem
          cases h
          refine ⟨by simp [hl], ?_⟩
          intro v hv
          rcases List.mem_cons.mp hv with hv1 | hv2
          · exact ⟨root, fields, st, st1, rfl, hobj, hv1⟩
          · exact hmem v hv2

/-- C2 (amended): for every non-empty declaration list, a successful
`generateMockData` call with `quantity = n` returns exactly `n` values, each
an object generated from the declaration chosen by `findRootInterface`; and
that selector satisfies the amended description `rootSelectorSpec`: the first
non-alias declaration whose name is never referenced as an `unknown`-kind
node inside any declaration's property tree (its own included), falling back
to the first non-alias declaration when every one is referenced. -/
theorem c2_quantity_and_root (fuel n s amb : Nat) (D : List InterfaceInfo) (r : MockResult)
    (hne : D ≠ []) (h : generateMockData fuel D ⟨some n, some s⟩ amb = .ok r) :
    r.result.length = n ∧
    findRootInterface D = rootSelectorSpec D ∧
    ∀ v ∈ r.result, ∃ root fields stA stB,
      findRootInterface D = some root ∧
      generateObjectFromInterface fuel root D stA = .ok (fields, stB) ∧
      v = .obj fields := by
  simp only [generateMockData, Option.getD_some] at h
  cases hloop : genLoop fuel n D (fakerSeedInit s) with
  | error e => rw [hloop] at h; cases h
  | ok pr =>
    obtain ⟨vs, stX⟩ := pr
    rw [hloop] at h
    cases h
    obtain ⟨hl, hmem⟩ := genLoop_ok fuel D hne n (fakerSeedInit s) vs stX hloop
    exact ⟨hl, findRootInterface_eq_spec D, hmem⟩

/-- Witness for C2 (amended) at a concrete one-declaration list with
`quantity = 2` and seed 42. -/
theorem c2_quantity_and_root_witness :
    ([⟨"E", [("x", literalNode (Prim.str "v"))]⟩] : List InterfaceInfo) ≠ [] ∧
    generateMockData 10 [⟨"E", [("x", literalNode (Prim.str "v"))]⟩] ⟨some 2, some 42⟩ 0
      = .ok ⟨42, [Value.obj [("x", .str "v")], Value.obj [("x", .str "v")]]⟩ ∧
    (MockResult.mk 42 [Value.obj [("x", .str "v")], Value.obj [("x", .str "v")]]).result.length = 2 :=
  ⟨List.cons_ne_nil _ _, rfl,
   (c2_quantity_and_root 10 2 42 0 [⟨"E", [("x", literalNode (Prim.str "v"))]⟩]
     ⟨42, [Value.obj [("x", .str "v")], Value.obj [("x", .str "v")]]⟩
     (List.cons_ne_nil _ _) rfl).1⟩

theorem arrayElement_eq {α : Type} (l : List α) (st : Rng) :
    arrayElement l st = (l.get? ((rngNext st).1 % l.length), (rngNext st).2) := rfl

theorem generateValue_enum (g : Nat) (hint : String) (vs : List Prim)
    (ifaces : List InterfaceInfo) (st : Rng) (h : vs ≠ []) :
    generateValue (g+1) hint (enumNode vs) ifaces st
      = .ok (primToValue (vs.get ⟨(rngNext st).1 % vs.length, Nat.mod_lt _ (List.length_pos.mpr h)⟩),
             (rngNext st).2) := by
  have hidx : (rngNext st).1 % vs.length < vs.length := Nat.mod_lt _ (List.length_pos.mpr h)
  simp [generateValue, enumNode, arrayElement_eq, List.getElem?_eq_getElem hidx]

/-- C3: a union whose members all resolve to literal nodes collapses to an
enum node whose ordered values are exactly the members' literal values in
source order (duplicates kept), and generating that enum node always yields
one of exactly those values. -/
theorem c3_literal_union_enum (f : Nat) (al : List (String × TsType)) (ts : List TsType)
    (tis : List TypeInfo)
    (hres : resolveList f ts al = some tis)
    (hne : tis ≠ [])
    (hlit : ∀ ti ∈ tis, ti.kind = Kind.literal) :
    getTypeInfoF (f+1) (.union ts) al
      = some (enumNode (tis.map (fun ti => ti.literalValue.getD (Prim.str "undefined")))) ∧
    ∀ g hint ifaces st, ∃ p st',
      p ∈ tis.map (fun ti => ti.literalValue.getD (Prim.str "undefined")) ∧
      generateValue (g+1) hint
          (enumNode (tis.map (fun ti => ti.literalValue.getD (Prim.str "undefined")))) ifaces st
        = .ok (primToValue p, st') := by
  constructor
  · have hall : tis.all (fun ti => ti.kind == Kind.literal) = true := by
      rw [List.all_eq_true]
      intro ti hti
      simp [hlit ti hti]
    simp only [getTypeInfoF]
    rw [hres]
    simp [hall]
    intro x hx hk
    exact absurd (hlit x hx) hk
  · intro g hint ifaces st
    have hne' : tis.map (fun ti => ti.literalValue.getD (Prim.str "undefined")) ≠ [] := by
      simpa using hne
    refine ⟨_, _, List.get_mem _ _ _, generateValue_enum g hint _ ifaces st hne'⟩

/-- Witness for C3 at the two-literal union `'a' | 'b'`. -/
theorem c3_literal_union_enum_witness :
    resolveList 5 [TsType.litStr "a", TsType.litStr "b"] []
      = some [literalNode (Prim.str "a"), literalNode (Prim.str "b")] ∧
    getTypeInfoF 6 (.union [TsType.litStr "a", TsType.litStr "b"]) []
      = some (enumNode [Prim.str "a", Prim.str "b"]) ∧
    (∃ p st', p ∈ [Prim.str "a", Prim.str "b"] ∧
      generateValue 5 "role" (enumNode [Prim.str "a", Prim.str "b"]) [] 7
        = .ok (primToValue p, st')) :=
  ⟨rfl,
   (c3_literal_union_enum 5 [] [TsType.litStr "a", TsType.litStr "b"]
      [literalNode (Prim.str "a"), literalNode (Prim.str "b")] rfl
      (List.cons_ne_nil _ _)
      (by intro ti hti; rcases List.mem_cons.mp hti with h | h
          · subst h; rfl
          · rw [List.mem_singleton] at h; subst h; rfl)).1,
   (c3_literal_union_enum 5 [] [TsType.litStr "a", TsType.litStr "b"]
      [literalNode (Prim.str "a"), literalNode (Prim.str "b")] rfl
      (List.cons_ne_nil _ _)
      (by intro ti hti; rcases List.mem_cons.mp hti with h | h
          · subst h; rfl
          · rw [List.mem_singleton] at h; subst h; rfl)).2 4 "role" [] 7⟩

/-- C6 (amended): a type reference whose name has no collected alias and is
none of the built-in generic/utility names parses to a node of kind `unknown`
preserving the name, and such a node is resolved only at generation time by
declaration-table lookup (an entity match generates the full object from the
matched declaration).  References to collected type aliases — structural ones
included — are substituted at parse time instead. -/
theorem c6_reference_resolution (f : Nat) (al : List (String × TsType)) (name : String)
    (args : List TsType)
    (h1 : aliasLookup al name = none) (h2 : name ≠ "Date") (h3 : name ≠ "Array")
    (h4 : name ≠ "Map") (h5 : name ≠ "Set") (h6 : utilityTypeNames.contains name = false) :
    getTypeInfoF (f+1) (.ref name args) al = some (unknownNode name) ∧
    ∀ g hint ifaces st E, ifaces.find? (fun i => i.name == name) = some E →
      lookupProp E.properties "__value" = none →
      generateValue (g+1) hint (unknownNode name) ifaces st
        = (match generateObjectFromInterface g E ifaces st with
           | .ok (fields, st') => .ok (.obj fields, st')
           | .error e => .error e) := by
  have h6' : name ∉ utilityTypeNames := by simpa using h6
  constructor
  · simp [getTypeInfoF, h1, h2, h3, h4, h5, h6']
  · intro g hint ifaces st E hfind hval
    simp [generateValue, unknownNode, TypeInfo.base, hfind, hval]

/-- Witness for C6 (amended) at a concrete unrecognised reference name and a
concrete entity table. -/
theorem c6_reference_resolution_witness :
    aliasLookup [("Other", TsType.strKw)] "Widget" = none ∧
    utilityTypeNames.contains "Widget" = false ∧
    getTypeInfoF 4 (.ref "Widget" []) [("Other", TsType.strKw)] = some (unknownNode "Widget") ∧
    generateValue 6 "w" (unknownNode "Widget") [⟨"Widget", [("tag", literalNode (Prim.str "t"))]⟩] 11
      = (match generateObjectFromInterface 5 ⟨"Widget", [("tag", literalNode (Prim.str "t"))]⟩
              [⟨"Widget", [("tag", literalNode (Prim.str "t"))]⟩] 11 with
         | .ok (fields, st') => .ok (.obj fields, st')
         | .error e => .error e) :=
  ⟨rfl, rfl,
   (c6_reference_resolution 3 [("Other", TsType.strKw)] "Widget" [] rfl
      (by decide) (by decide) (by decide) (by decide) rfl).1,
   (c6_reference_resolution 3 [("Other", TsType.strKw)] "Widget" [] rfl
      (by decide) (by decide) (by decide) (by decide) rfl).2 5 "w"
      [⟨"Widget", [("tag", literalNode (Prim.str "t"))]⟩] 11
      ⟨"Widget", [("tag", literalNode (Prim.str "t"))]⟩ rfl rfl⟩

theorem objInsert_map_fst (fields : List (String × Value)) (k : String) (v : Value) :
    (objInsert fields k v).map Prod.fst
      = if fields.any (fun p => p.1 == k) then fields.map Prod.fst
        else fields.map Prod.fst ++ [k] := by
  unfold objInsert
  split
  next h =>
    rw [List.map_map]
    apply List.map_congr_left
    intro p _
    by_cases hpk : p.1 == k
    · have hq : p.1 = k := by simpa using hpk
      simp [hq]
    · have hq : ¬(p.1 = k) := by simpa using hpk
      simp [hq]
  next h => simp

theorem any_fst_eq (l : List (String × Value)) (k : String) :
    (l.map Prod.fst).any (fun x => x == k) = l.any (fun p => p.1 == k) := by
  induction l with
  | nil => rfl
  | cons p rest ih => simp [ih]

theorem genProps_keys : ∀ (ps : List (String × TypeInfo)) (f : Nat)
    (ifaces : List InterfaceInfo) (acc : List (String × Value)) (st : Rng)
    (fields : List (String × Value)) (st' : Rng),
    (∀ p ∈ ps, p.2.isOptional = false) →
    genProps f ps ifaces acc st = .ok (fields, st') →
    fields.map Prod.fst = insKeys (acc.map Prod.fst) (ps.map Prod.fst) := by
  intro ps
  induction ps with
  | nil =>
    intro f ifaces acc st fields st' hreq h
    cases f with
    | zero => cases h
    | succ g => simp only [genProps] at h; cases h; rfl
  | cons p rest ih =>
    obtain ⟨pn, pt⟩ := p
    intro f ifaces acc st fields st' hreq h
    cases f with
    | zero => cases h
    | succ g =>
      have hopt : pt.isOptional = false := hreq (pn, pt) (List.mem_cons_self _ _)
      simp only [genProps, hopt, Bool.false_eq_true, if_false] at h
      cases hv : generateValue g pn pt ifaces st with
      | error e => simp [hv] at h
      | ok pr =>
        obtain ⟨val, st2⟩ := pr
        simp only [hv] at h
        have hrest := ih g ifaces (objInsert acc pn val) st2 fields st'
          (fun q hq => hreq q (List.mem_cons_of_mem _ hq)) h
        rw [hrest, objInsert_map_fst]
        simp only [List.map_cons, insKeys, any_fst_eq]

theorem insKeys_eq_append_of_nodup : ∀ (l ks : List String), (ks ++ l).Nodup →
    insKeys ks l = ks ++ l := by
  intro l
  induction l with
  | nil => intro ks _; simp [insKeys]
  | cons k rest ih =>
    intro ks h
    have hk : k ∉ ks := by
      intro hmem
      rcases List.nodup_append.mp h with ⟨_, _, hdisj⟩
      exact hdisj hmem (List.mem_cons_self _ _)
    have hcond : ks.any (fun x => x == k) = false := by
      rw [List.any_eq_false]
      intro x hx
      simp only [beq_iff_eq]
      intro he
      exact hk (he ▸ hx)
    have hnd : ((ks ++ [k]) ++ rest).Nodup := by simpa using h
    simp only [insKeys, hcond]
    rw [if_neg (by simp), ih (ks ++ [k]) hnd]
    simp

theorem genObject_keys (f : Nat) (iface : InterfaceInfo) (ifaces : List InterfaceInfo)
    (st : Rng) (fields : List (String × Value)) (st2 : Rng)
    (hreq : ∀ p ∈ iface.properties, p.2.isOptional = false)
    (h : generateObjectFromInterface f iface ifaces st = .ok (fields, st2)) :
    fields.map Prod.fst = insKeys [] (iface.properties.map Prod.fst) := by
  cases f with
  | zero => cases h
  | succ g =>
    simp only [generateObjectFromInterface] at h
    exact genProps_keys _ g ifaces [] st fields st2 hreq h

theorem propInsert_fresh (acc : List (String × TypeInfo)) (k : String) (v : TypeInfo)
    (h : acc.any (fun p => p.1 == k) = false) : propInsert acc k v = acc ++ [(k, v)] := by
  unfold propInsert
  rw [h]
  simp

theorem foldl_propInsert_eq_append : ∀ (ps acc : List (String × TypeInfo)),
    ((acc ++ ps).map Prod.fst).Nodup →
    ps.foldl (fun a p => propInsert a p.1 p.2) acc = acc ++ ps := by
  intro ps
  induction ps with
  | nil => intro acc _; simp
  | cons p rest ih =>
    obtain ⟨pn, pv⟩ := p
    intro acc h
    have hk : pn ∉ acc.map Prod.fst := by
      intro hmem
      rw [List.map_append] at h
      rcases List.nodup_append.mp h with ⟨_, _, hdisj⟩
      exact hdisj hmem (by simp)
    have hcond : acc.any (fun p => p.1 == pn) = false := by
      rw [List.any_eq_false]
      intro x hx
      simp only [beq_iff_eq]
      intro he
      exact hk (List.mem_map.mpr ⟨x, hx, he⟩)
    simp only [List.foldl_cons, propInsert_fresh acc pn pv hcond]
    rw [ih (acc ++ [(pn, pv)]) (by simpa using h)]
    simp

theorem buildProps_eq_self (ps : List (String × TypeInfo))
    (h : (ps.map Prod.fst).Nodup) : buildProps ps = ps := by
  unfold buildProps
  have := foldl_propInsert_eq_append ps [] (by simpa using h)
  simpa using this

theorem map_fst_filter (q : String → Bool) (ps : List (String × TypeInfo)) :
    (ps.filter (fun p => q p.1)).map Prod.fst = (ps.map Prod.fst).filter q := by
  induction ps with
  | nil => rfl
  | cons p rest ih => cases hq : q p.1 <;> simp [List.filter_cons, hq, ih]

/-- C4 (amended): generating `Pick<E, K>` (resp. `Omit<E, K>`) equals
generating the filtered transient declaration that keeps (resp. drops)
exactly the extracted key names, each kept property carrying its original
type and optionality verbatim; when the kept properties are all required and
the entity's property names are distinct, the generated key list is exactly
the kept names in declaration order (and the Omit key list is exactly the
complement). -/
theorem c4_pick_omit_filter (f : Nat) (hint bname : String) (keysT : TypeInfo)
    (ifaces : List InterfaceInfo) (E : InterfaceInfo) (K : List String) (st : Rng)
    (hfind : ifaces.find? (fun i => i.name == bname) = some E)
    (hkeys : extractKeyNamesF f (some keysT) ifaces [] = some K) :
    (generateValue (f+1) hint (utilityNode "Pick" .uPick [unknownNode bname, keysT]) ifaces st
      = (match generateObjectFromInterface f
            ⟨E.name, buildProps (E.properties.filter (fun p => K.contains p.1))⟩ ifaces st with
         | .ok (fields, st') => .ok (.obj fields, st')
         | .error e => .error e)) ∧
    (generateValue (f+1) hint (utilityNode "Omit" .uOmit [unknownNode bname, keysT]) ifaces st
      = (match generateObjectFromInterface f
            ⟨E.name, buildProps (E.properties.filter (fun p => !K.contains p.1))⟩ ifaces st with
         | .ok (fields, st') => .ok (.obj fields, st')
         | .error e => .error e)) ∧
    ((E.properties.map Prod.fst).Nodup →
     (∀ p ∈ E.properties, p.2.isOptional = false) →
     (∀ fields st2,
        generateObjectFromInterface f
            ⟨E.name, buildProps (E.properties.filter (fun p => K.contains p.1))⟩ ifaces st
          = .ok (fields, st2) →
        fields.map Prod.fst = (E.properties.map Prod.fst).filter (fun k => K.contains k)) ∧
     (∀ fields st2,
        generateObjectFromInterface f
            ⟨E.name, buildProps (E.properties.filter (fun p => !K.contains p.1))⟩ ifaces st
          = .ok (fields, st2) →
        fields.map Prod.fst = (E.properties.map Prod.fst).filter (fun k => !K.contains k))) := by
  refine ⟨?_, ?_, ?_⟩
  · simp [generateValue, utilityNode, unknownNode, TypeInfo.base, hfind, hkeys]
  · simp [generateValue, utilityNode, unknownNode, TypeInfo.base, hfind, hkeys]
  · intro hnd hreq
    constructor
    · intro fields st2 hgen
      have hnd' : ((E.properties.filter (fun p => K.contains p.1)).map Prod.fst).Nodup := by
        rw [map_fst_filter (fun k => K.contains k) E.properties]
        exact hnd.filter _
      have hfilter := buildProps_eq_self _ hnd'
      rw [hfilter] at hgen
      have hreq' : ∀ p ∈ E.properties.filter (fun p => K.contains p.1), p.2.isOptional = false :=
        fun p hp => hreq p (List.mem_of_mem_filter hp)
      have hkeysEq := genObject_keys f _ ifaces st fields st2 hreq' hgen
      dsimp only at hkeysEq
      rw [hkeysEq, insKeys_eq_append_of_nodup _ [] (by simpa using hnd'), List.nil_append,
        map_fst_filter (fun k => K.contains k) E.properties]
    · intro fields st2 hgen
      have hnd' : ((E.properties.filter (fun p => !K.contains p.1)).map Prod.fst).Nodup := by
        rw [map_fst_filter (fun k => !K.contains k) E.properties]
        exact hnd.filter _
      have hfilter := buildProps_eq_self _ hnd'
      rw [hfilter] at hgen
      have hreq' : ∀ p ∈ E.properties.filter (fun p => !K.contains p.1), p.2.isOptional = false :=
        fun p hp => hreq p (List.mem_of_mem_filter hp)
      have hkeysEq := genObject_keys f _ ifaces st fields st2 hreq' hgen
      dsimp only at hkeysEq
      rw [hkeysEq, insKeys_eq_append_of_nodup _ [] (by simpa using hnd'), List.nil_append,
        map_fst_filter (fun k => !K.contains k) E.properties]

/-- Witness for C4 (amended) at a concrete all-required entity
`E = {x, y, z : string}` picked with keys `"x" | "y"`. -/
theorem c4_pick_omit_filter_witness :
    ([⟨"E", [("x", strNode), ("y", strNode), ("z", strNode)]⟩] : List InterfaceInfo).find?
        (fun i => i.name == "E") = some ⟨"E", [("x", strNode), ("y", strNode), ("z", strNode)]⟩ ∧
    extractKeyNamesF 10 (some (enumNode [Prim.str "x", Prim.str "y"]))
        [⟨"E", [("x", strNode), ("y", strNode), ("z", strNode)]⟩] [] = some ["x", "y"] ∧
    ([("x", Value.str "lorem"), ("y", Value.str "amet")].map Prod.fst
      = (([("x", strNode), ("y", strNode), ("z", strNode)] : List (String × TypeInfo)).map Prod.fst).filter
          (fun k => (["x", "y"] : List String).contains k)) :=
  ⟨rfl, rfl,
   ((c4_pick_omit_filter 10 "p" "E" (enumNode [Prim.str "x", Prim.str "y"])
       [⟨"E", [("x", strNode), ("y", strNode), ("z", strNode)]⟩]
       ⟨"E", [("x", strNode), ("y", strNode), ("z", strNode)]⟩ ["x", "y"] 0 rfl rfl).2.2
     (by decide)
     (by intro p hp
         rcases List.mem_cons.mp hp with h | hp2
         · subst h; rfl
         rcases List.mem_cons.mp hp2 with h | hp3
         · subst h; rfl
         rw [List.mem_singleton] at hp3
         subst hp3; rfl)).1
     [("x", Value.str "lorem"), ("y", Value.str "amet")] 1406932606 rfl⟩

theorem generateValue_strNode (g : Nat) (hint : String) (ifaces : List InterfaceInfo) (st : Rng) :
    ∃ s st', generateValue (g+1) hint strNode ifaces st = .ok (.str s, st') := by
  rcases hgen : generateStringValue (strLower hint) st with ⟨s, st'⟩
  exact ⟨s, st', by simp [generateValue, strNode, TypeInfo.base, generatePrimitiveValue, jsOrStr, hgen]⟩

theorem generateValue_numNode (g : Nat) (hint : String) (ifaces : List InterfaceInfo) (st : Rng) :
    ∃ q st', generateValue (g+1) hint numNode ifaces st = .ok (.num q, st') := by
  rcases hgen : generateNumberValue (strLower hint) st with ⟨q, st'⟩
  exact ⟨q, st', by simp [generateValue, numNode, TypeInfo.base, generatePrimitiveValue, jsOrStr, hgen]⟩

theorem objInsert_length_lower (fields : List (String × Value)) (k : String) (v : Value) :
    fields.length ≤ (objInsert fields k v).length := by
  unfold objInsert
  split <;> simp

theorem objInsert_length_upper (fields : List (String × Value)) (k : String) (v : Value) :
    (objInsert fields k v).length ≤ fields.length + 1 := by
  unfold objInsert
  split <;> simp

theorem objInsert_length_pos (fields : List (String × Value)) (k : String) (v : Value) :
    1 ≤ (objInsert fields k v).length := by
  unfold objInsert
  split
  next h =>
    have hne : fields ≠ [] := by
      intro he
      subst he
      simp at h
    simpa using List.length_pos.mpr hne
  next h => simp

theorem objInsert_pred {P : String × Value → Prop} (fields : List (String × Value))
    (k : String) (v : Value) (hall : ∀ p ∈ fields, P p) (hkv : P (k, v)) :
    ∀ p ∈ objInsert fields k v, P p := by
  unfold objInsert
  split
  next hcond =>
    intro p hp
    rcases List.mem_map.mp hp with ⟨q, hq, rfl⟩
    by_cases hqk : q.1 == k
    · simpa [hqk] using hkv
    · simpa [hqk] using hall q hq
  next hcond =>
    intro p hp
    rcases List.mem_append.mp hp with hm | hm
    · exact hall p hm
    · rw [List.mem_singleton] at hm
      subst hm
      exact hkv

theorem genRecordSlots_strnum : ∀ (n f : Nat) (hint : String) (ifaces : List InterfaceInfo)
    (acc : List (String × Value)) (st : Rng) (fields : List (String × Value)) (st' : Rng),
    genRecordSlots f n hint strNode numNode ifaces acc st = .ok (fields, st') →
    (∀ p ∈ acc, ∃ q, p.2 = Value.num q) →
    (∀ p ∈ fields, ∃ q, p.2 = Value.num q) ∧ acc.length ≤ fields.length ∧
      fields.length ≤ acc.length + n ∧ (1 ≤ n → 1 ≤ fields.length) := by
  intro n
  induction n with
  | zero =>
    intro f hint ifaces acc st fields st' h hacc
    cases f with
    | zero => cases h
    | succ g =>
      simp only [genRecordSlots] at h
      cases h
      exact ⟨hacc, le_refl _, by omega, by omega⟩
  | succ m ih =>
    intro f hint ifaces acc st fields st' h hacc
    cases f with
    | zero => cases h
    | succ g =>
      simp only [genRecordSlots] at h
      cases g with
      | zero => simp [generateValue] at h
      | succ g2 =>
        obtain ⟨ks, st1, hkey⟩ := generateValue_strNode g2
          (jsOrStr strNode.keyHint (if strNode.kind == Kind.unknown then strNode.name else "key"))
          ifaces st
        simp only [hkey] at h
        obtain ⟨q, st2, hval⟩ := generateValue_numNode g2
          (if (["string", "number", "boolean"] : List String).contains numNode.name then hint
           else jsOrStr (some numNode.name) hint)
          ifaces st1
        simp only [hval] at h
        obtain ⟨hv, hlow, hup, hpos⟩ := ih (g2+1) hint ifaces
          (objInsert acc (valueToString (.str ks)) (.num q)) st2 fields st' h
          (objInsert_pred acc _ _ hacc ⟨q, rfl⟩)
        have h1 := objInsert_length_lower acc (valueToString (.str ks)) (.num q)
        have h2 := objInsert_length_upper acc (valueToString (.str ks)) (.num q)
        have h3 := objInsert_length_pos acc (valueToString (.str ks)) (.num q)
        exact ⟨hv, by omega, by omega, fun _ => by omega⟩

/-- C5 (amended): generating a `Record<string, number>` node yields a mapping
with between 1 and 5 keys — the slot count is sampled in 2..5 but key
collisions overwrite — and every value is a number. -/
theorem c5_record_bounds (f : Nat) (hint : String) (ifaces : List InterfaceInfo)
    (st : Rng) (v : Value) (st' : Rng)
    (h : generateValue (f+1) hint (utilityNode "Record" .uRecord [strNode, numNode]) ifaces st
      = .ok (v, st')) :
    ∃ fields, v = .obj fields ∧ 1 ≤ fields.length ∧ fields.length ≤ 5 ∧
      ∀ p ∈ fields, ∃ q, p.2 = Value.num q := by
  simp only [generateValue, utilityNode, strNode, numNode, TypeInfo.base, TypeInfo.kind_mk,
    TypeInfo.utilityType_mk, TypeInfo.utilityTypeArgs_mk, TypeInfo.templatePattern_mk,
    TypeInfo.enumValues_mk, TypeInfo.name_mk, TypeInfo.objectProperties_mk,
    TypeInfo.unionTypes_mk, TypeInfo.intersectionTypes_mk, TypeInfo.arrayElementType_mk,
    TypeInfo.tupleElements_mk, fakerInt] at h
  simp at h
  cases hrec : genRecordSlots f (2 + (rngNext st).1 % 4) hint
      (TypeInfo.mk "string" Kind.string false false none none none none none none none none none none none none none none none)
      (TypeInfo.mk "number" Kind.number false false none none none none none none none none none none none none none none none)
      ifaces [] (rngNext st).2 with
  | error e => rw [hrec] at h; cases h
  | ok pr =>
    obtain ⟨fields, st2⟩ := pr
    obtain ⟨hv, hlow, hup, hpos⟩ := genRecordSlots_strnum _ f hint ifaces [] _ fields st2 hrec (by simp)
    rw [hrec] at h
    cases h
    have hm : (rngNext st).1 % 4 < 4 := Nat.mod_lt _ (by omega)
    exact ⟨fields, rfl, hpos (by omega), by simp at hup; omega, hv⟩

/-- Witness for C5 (amended) at a concrete generation of
`Record<string, number>` from stream state 5. -/
theorem c5_record_bounds_witness :
    generateValue 20 "data" (utilityNode "Record" .uRecord [strNode, numNode]) [] 5
      = .ok (.obj [("ipsum", .num ((617 : Nat) : Rat)), ("consectetur", .num ((194 : Nat) : Rat)),
                   ("amet", .num ((105 : Nat) : Rat)), ("sit", .num ((573 : Nat) : Rat)),
                   ("lorem", .num ((238 : Nat) : Rat))], 1981623168) ∧
    (∃ fields,
      Value.obj [("ipsum", .num ((617 : Nat) : Rat)), ("consectetur", .num ((194 : Nat) : Rat)),
                 ("amet", .num ((105 : Nat) : Rat)), ("sit", .num ((573 : Nat) : Rat)),
                 ("lorem", .num ((238 : Nat) : Rat))] = .obj fields ∧
      1 ≤ fields.length ∧ fields.length ≤ 5 ∧ ∀ p ∈ fields, ∃ q, p.2 = Value.num q) :=
  ⟨rfl, c5_record_bounds 19 "data" [] 5 _ 1981623168 rfl⟩
